import Mathlib

/-
  Verification development for the order-intake conversation bot
  (src/main.py).  The whole program state and every conversation
  handler is shallowly embedded below; machine integers are Nat/Int,
  Python dict keys that may be absent are Option fields, and Python
  exceptions are an explicit PyErr value threaded through handler
  results.  The telegram framework (ConversationHandler) semantics is
  embedded in the dispatcher: a handler that raises keeps the current
  conversation state, and so does a handler that returns None.
-/

namespace Bot1

/- Conversation states, src/main.py lines 24-27.  END plays the role of
ConversationHandler.END; START additionally stands for a chat with no
active conversation yet (only the /start entry point is live there). -/
inductive ConvState
  | START | NAME | CHOOSE_STORE | SHOP_ID | OWNER_NAME | OWNER_PHONE
  | PRODUCT_IMAGE | PRODUCT_CODE | PRODUCT_COLOR | BADGE_QUANTITY
  | PRODUCT_SIZE_RANGE | PRODUCT_PRICE | CONFIRM_PRODUCT | NEXT_ACTION
  | CHOOSE_RECIPIENT | END
  deriving DecidableEq, Repr

/- ITEMS_PER_PAGE, src/main.py line 30. -/
def ITEMS_PER_PAGE : Nat := 10

/- Ceiling-division page count, src/main.py lines 105, 224, 473:
total_pages = (total + ITEMS_PER_PAGE - 1) // ITEMS_PER_PAGE.
The same expression appears verbatim in show_stores_page,
show_colors_page and show_recipients_page; it is embedded once. -/
def total_pages (n : Nat) : Nat := (n + ITEMS_PER_PAGE - 1) / ITEMS_PER_PAGE

/- The rows rendered on page p, src/main.py lines 108-115:
start_idx = p * ITEMS_PER_PAGE, end_idx = min(start_idx + ITEMS_PER_PAGE, n),
one button per index in range(start_idx, end_idx). -/
def page_rows (l : List String) (p : Nat) : List String :=
  (l.drop (p * ITEMS_PER_PAGE)).take ITEMS_PER_PAGE

/- Navigation-button availability, src/main.py lines 119 and 121:
the Previous button is added only when current_page > 0, the Next
button only when current_page < total_pages - 1. -/
def hasPrev (p : Int) : Bool := 0 < p

def hasNext (p : Int) (n : Nat) : Bool := p < (total_pages n : Int) - 1

/- The page count the specification text prescribes:
max(1, ceil(n / pageSize)) with pageSize = 10.  This definition follows
the words of the spec (not the source) and exists only to be compared
with total_pages above. -/
def totalPages_spec (n : Nat) : Nat := max 1 ((n + 10 - 1) / 10)

/- Python exceptions that the handlers can raise. -/
inductive PyErr
  | keyError        -- missing dict key
  | valueError      -- e.g. bool(DataFrame) (truth value is ambiguous)
  | indexError      -- list/iloc index out of range
  | typeError       -- e.g. len(None)
  | attributeError  -- e.g. None.iloc
  | nameError       -- unbound local variable
  deriving DecidableEq, Repr

/- A product draft: the current_product dict.  Every key may be absent. -/
structure Product where
  image_file_id : Option String := none
  code : Option String := none
  color : Option String := none
  badge_quantity : Option String := none
  size_range : Option String := none
  price : Option String := none
  deriving DecidableEq, Repr

/- One entry of user_data_store (src/main.py line 33): the per-user dict
holding the collected answers and the confirmed products list.  The
products key is absent until first written (lines 183-184, 345-346). -/
structure UserData where
  name : Option String := none
  store : Option String := none
  shop_id : Option String := none
  owner_name : Option String := none
  owner_phone : Option String := none
  products : Option (List Product) := none
  deriving DecidableEq, Repr

/- One row of the output spreadsheet, src/main.py lines 441-453. -/
structure OrderRow where
  user_name : String
  store : String
  shop_id : String
  owner_name : String
  owner_phone : String
  code : String
  color : String
  badge_quantity : String
  size_range : String
  price : String
  image_file_id : String
  deriving DecidableEq, Repr

/- context.user_data: the second per-user mutable dict (page indices,
the in-progress draft, and the prepared order dataframe). -/
structure CtxData where
  stores_page : Option Int := none
  colors_page : Option Int := none
  recipients_page : Option Int := none
  current_product : Option Product := none
  order_dataframe : Option (List OrderRow) := none
  deriving DecidableEq, Repr

/- The excel_data cache, src/main.py lines 36-40.  A sheet that has not
been loaded is None; a loaded sheet is the ordered list of first-column
display names (recipients also carry the second-column telegram id). -/
structure ExcelData where
  stores : Option (List String) := none
  colors : Option (List String) := none
  recipients : Option (List (String × Int)) := none
  deriving DecidableEq, Repr

/- The whole mutable state relevant to one user conversation. -/
structure MState where
  conv : ConvState
  user : Option UserData
  ctx : CtxData
  excel : ExcelData
  deriving DecidableEq, Repr

/- The three paginated reference lists. -/
inductive ListKind
  | stores | colors | recipients
  deriving DecidableEq, Repr

/- Observable side effects emitted by the handlers. -/
inductive Effect
  | reply (text : String)                  -- reply_text / edit_message_text
  | deleteMessage                          -- query.delete_message()
  | sendMessage (chat : Int) (text : String)
  | sendDocument (chat : Int) (rows : List OrderRow) (caption : String)
  | writeExcel (uid : Int) (rows : List OrderRow)   -- df.to_excel(order_<uid>.xlsx)
  | showPage (kind : ListKind) (page : Int)         -- a paginated keyboard message
  | confirmPrompt (code color badge size price : String) (image : Option String)
  deriving DecidableEq, Repr

/- Callback-query payloads, the namespaced button tokens of the source:
store_<i>, store_prev_page, store_next_page, color_<i>, ...,
confirm_yes, confirm_no, edit_color, edit_new, recipient_<i>,
recipient_prev_page, recipient_next_page, recipient_skip. -/
inductive CbData
  | store_idx (i : Nat) | store_prev_page | store_next_page
  | color_idx (i : Nat) | color_prev_page | color_next_page
  | confirm_yes | confirm_no | edit_color | edit_new
  | recipient_idx (i : Nat) | recipient_prev_page | recipient_next_page
  | recipient_skip
  deriving DecidableEq, Repr

/- Inbound transport events. -/
inductive Event
  | cmd_start
  | cmd_cancel
  | text (s : String)        -- non-command free text
  | photo (fileId : String)
  | cb (d : CbData)
  deriving DecidableEq, Repr

/- What a Python handler invocation produces besides its mutations:
either a returned next state, an implicit return None (the function
falls off the end), or a raised exception.  In the last two cases the
ConversationHandler keeps the previous conversation state. -/
inductive POut
  | ret (next : ConvState)
  | retNone
  | raised (e : PyErr)
  deriving DecidableEq, Repr

/- A handler result: the mutated state (mutations performed before a
raise do persist), the emitted effects, and the outcome. -/
structure HRes where
  st : MState
  effs : List Effect
  out : POut
  deriving DecidableEq, Repr

/- The document behind EXCEL_URL, as the oracle for requests.get:
none models a fetch/parse failure, some d a successful download. -/
structure FetchData where
  stores : List String
  colors : List String
  recipients : List (String × Int)
  deriving DecidableEq, Repr

/- Process environment: the fetch oracle, whether the guarded
send_document to the recipient succeeds (the only transport call inside
a try/except, src/main.py lines 551-568), and the requester chat id. -/
structure Env where
  fetch : Option FetchData
  deliverOk : Bool
  uid : Int
  deriving DecidableEq, Repr

/- load_excel_data, src/main.py lines 43-69: on success all three
sheets are stored in the cache and True is returned; on any exception
the cache is left untouched and False is returned (the three cache
assignments at lines 62-64 happen only after every read succeeded). -/
def load_excel_data (fetch : Option FetchData) (ex : ExcelData) : ExcelData × Bool :=
  match fetch with
  | none => (ex, false)
  | some d =>
      ({ stores := some d.stores, colors := some d.colors,
         recipients := some d.recipients }, true)

/- No matching handler: the update is ignored, state unchanged. -/
def noop (st : MState) : HRes := ⟨st, [], POut.retNone⟩

/- show_stores_page, src/main.py lines 100-139.  current_page is read
with .get and default 0; len(None) raises TypeError when the sheet is
still None.  The rendered keyboard content is governed by the pure
functions total_pages / page_rows / hasPrev / hasNext above. -/
def show_stores_page (st : MState) : List Effect × Option PyErr :=
  match st.excel.stores with
  | none => ([], some PyErr.typeError)
  | some _ => ([Effect.showPage ListKind.stores (st.ctx.stores_page.getD 0)], none)

/- show_colors_page, src/main.py lines 219-258 (same shape). -/
def show_colors_page (st : MState) : List Effect × Option PyErr :=
  match st.excel.colors with
  | none => ([], some PyErr.typeError)
  | some _ => ([Effect.showPage ListKind.colors (st.ctx.colors_page.getD 0)], none)

/- show_recipients_page, src/main.py lines 468-511 (same shape, plus
the always-present Skip button). -/
def show_recipients_page (st : MState) : List Effect × Option PyErr :=
  match st.excel.recipients with
  | none => ([], some PyErr.typeError)
  | some _ => ([Effect.showPage ListKind.recipients (st.ctx.recipients_page.getD 0)], none)

/- The recurring call pattern `await show_X_page(update, context);
return NEXT`: the page-rendering call may itself raise (keeping the
state machine where it was), otherwise the handler returns the next
state; either way the mutations made before the call persist. -/
def thenShow (st1 : MState) (next : ConvState) (pre : List Effect)
    (sh : MState → List Effect × Option PyErr) : HRes :=
  match sh st1 with
  | (effs, none) => ⟨st1, pre ++ effs, POut.ret next⟩
  | (effs, some e) => ⟨st1, pre ++ effs, POut.raised e⟩

/- start, src/main.py lines 72-79: creates a fresh empty per-user dict
and asks for the name. -/
def start (st : MState) : HRes :=
  ⟨{ st with user := some {} },
   [Effect.reply "Welcome to the Indenim Bot! Please enter your name:"],
   POut.ret ConvState.NAME⟩

/- process_name, src/main.py lines 81-98.  The already-loaded check
`if not excel_data[stores-key] or excel_data[stores-key] is None` short
circuits to True when the sheet is None; when the sheet is a loaded
DataFrame, bool(DataFrame) raises ValueError (truth value ambiguous),
so the check itself raises on every conversation after a successful
load. -/
def process_name (env : Env) (st : MState) (t : String) : HRes :=
  match st.user with
  | none => ⟨st, [], POut.raised PyErr.keyError⟩
  | some u =>
      match st.excel.stores with
      | some _ =>
          ⟨{ st with user := some { u with name := some t } },
           [Effect.reply "Loading store data, please wait..."],
           POut.raised PyErr.valueError⟩
      | none =>
          match load_excel_data env.fetch st.excel with
          | (_, false) =>
              ⟨{ st with user := some { u with name := some t } },
               [Effect.reply "Loading store data, please wait...",
                Effect.reply "Failed to load store data. Please try again later."],
               POut.ret ConvState.END⟩
          | (ex2, true) =>
              thenShow
                { st with user := some { u with name := some t },
                          excel := ex2, ctx := { st.ctx with stores_page := some 0 } }
                ConvState.CHOOSE_STORE
                [Effect.reply "Loading store data, please wait..."]
                show_stores_page

/- store_choice, src/main.py lines 141-162.  Navigation decrements or
increments the page index unconditionally (no clamping); a selection
token store_<i> reads row i of the full stores list, page-independent. -/
def store_choice (st : MState) (d : CbData) : HRes :=
  match d with
  | CbData.store_prev_page =>
      match st.ctx.stores_page with
      | none => ⟨st, [], POut.raised PyErr.keyError⟩
      | some p =>
          thenShow { st with ctx := { st.ctx with stores_page := some (p - 1) } }
            ConvState.CHOOSE_STORE [] show_stores_page
  | CbData.store_next_page =>
      match st.ctx.stores_page with
      | none => ⟨st, [], POut.raised PyErr.keyError⟩
      | some p =>
          thenShow { st with ctx := { st.ctx with stores_page := some (p + 1) } }
            ConvState.CHOOSE_STORE [] show_stores_page
  | CbData.store_idx i =>
      match st.excel.stores with
      | none => ⟨st, [], POut.raised PyErr.attributeError⟩
      | some l =>
          match l[i]? with
          | none => ⟨st, [], POut.raised PyErr.indexError⟩
          | some nm =>
              match st.user with
              | none => ⟨st, [], POut.raised PyErr.keyError⟩
              | some u =>
                  ⟨{ st with user := some { u with store := some nm } },
                   [Effect.reply ("Selected store: " ++ nm ++ "\n\nPlease enter the shop ID:")],
                   POut.ret ConvState.SHOP_ID⟩
  | _ => noop st

/- process_shop_id, src/main.py lines 164-169. -/
def process_shop_id (st : MState) (t : String) : HRes :=
  match st.user with
  | none => ⟨st, [], POut.raised PyErr.keyError⟩
  | some u =>
      ⟨{ st with user := some { u with shop_id := some t } },
       [Effect.reply "Please enter the name of the shop owner:"],
       POut.ret ConvState.OWNER_NAME⟩

/- process_owner_name, src/main.py lines 171-176. -/
def process_owner_name (st : MState) (t : String) : HRes :=
  match st.user with
  | none => ⟨st, [], POut.raised PyErr.keyError⟩
  | some u =>
      ⟨{ st with user := some { u with owner_name := some t } },
       [Effect.reply "Please enter the phone number of the shop owner:"],
       POut.ret ConvState.OWNER_PHONE⟩

/- process_owner_phone, src/main.py lines 178-187: also creates the
products list when the key is still absent. -/
def process_owner_phone (st : MState) (t : String) : HRes :=
  match st.user with
  | none => ⟨st, [], POut.raised PyErr.keyError⟩
  | some u =>
      ⟨{ st with
          user := some { u with owner_phone := some t,
                                products := some (u.products.getD []) } },
       [Effect.reply "Now let\x27s add products. Please send a product image:"],
       POut.ret ConvState.PRODUCT_IMAGE⟩

/- process_product_image, src/main.py lines 189-206: rebinds
current_product to a fresh dict holding only the photo file id. -/
def process_product_image (st : MState) (fileId : String) : HRes :=
  ⟨{ st with ctx := { st.ctx with current_product := some { image_file_id := some fileId } } },
   [Effect.reply "Please enter the product code:"],
   POut.ret ConvState.PRODUCT_CODE⟩

/- process_product_code, src/main.py lines 208-217. -/
def process_product_code (st : MState) (t : String) : HRes :=
  match st.ctx.current_product with
  | none => ⟨st, [], POut.raised PyErr.keyError⟩
  | some p =>
      thenShow
        { st with ctx := { st.ctx with current_product := some { p with code := some t },
                                       colors_page := some 0 } }
        ConvState.PRODUCT_COLOR [] show_colors_page

/- color_choice, src/main.py lines 260-281: same structure as
store_choice, writing the chosen color into the current draft. -/
def color_choice (st : MState) (d : CbData) : HRes :=
  match d with
  | CbData.color_prev_page =>
      match st.ctx.colors_page with
      | none => ⟨st, [], POut.raised PyErr.keyError⟩
      | some p =>
          thenShow { st with ctx := { st.ctx with colors_page := some (p - 1) } }
            ConvState.PRODUCT_COLOR [] show_colors_page
  | CbData.color_next_page =>
      match st.ctx.colors_page with
      | none => ⟨st, [], POut.raised PyErr.keyError⟩
      | some p =>
          thenShow { st with ctx := { st.ctx with colors_page := some (p + 1) } }
            ConvState.PRODUCT_COLOR [] show_colors_page
  | CbData.color_idx i =>
      match st.excel.colors with
      | none => ⟨st, [], POut.raised PyErr.attributeError⟩
      | some l =>
          match l[i]? with
          | none => ⟨st, [], POut.raised PyErr.indexError⟩
          | some nm =>
              match st.ctx.current_product with
              | none => ⟨st, [], POut.raised PyErr.keyError⟩
              | some p =>
                  ⟨{ st with ctx := { st.ctx with current_product := some { p with color := some nm } } },
                   [Effect.reply ("Selected color: " ++ nm ++ "\n\nPlease enter the badge quantity:")],
                   POut.ret ConvState.BADGE_QUANTITY⟩
  | _ => noop st

/- process_badge_quantity, src/main.py lines 283-288. -/
def process_badge_quantity (st : MState) (t : String) : HRes :=
  match st.ctx.current_product with
  | none => ⟨st, [], POut.raised PyErr.keyError⟩
  | some p =>
      ⟨{ st with ctx := { st.ctx with current_product := some { p with badge_quantity := some t } } },
       [Effect.reply "Please enter the product size range:"],
       POut.ret ConvState.PRODUCT_SIZE_RANGE⟩

/- process_size_range, src/main.py lines 290-295. -/
def process_size_range (st : MState) (t : String) : HRes :=
  match st.ctx.current_product with
  | none => ⟨st, [], POut.raised PyErr.keyError⟩
  | some p =>
      ⟨{ st with ctx := { st.ctx with current_product := some { p with size_range := some t } } },
       [Effect.reply "Please enter the product price:"],
       POut.ret ConvState.PRODUCT_PRICE⟩

/- process_price, src/main.py lines 297-335: stores the price, then
builds the confirmation message, reading code, color, badge_quantity
and size_range from the draft (KeyError if any is absent; the price
was just written).  The photo variant is used when image_file_id
exists. -/
def process_price (st : MState) (t : String) : HRes :=
  match st.ctx.current_product with
  | none => ⟨st, [], POut.raised PyErr.keyError⟩
  | some p0 =>
      match p0.code, p0.color, p0.badge_quantity, p0.size_range with
      | some c, some col, some b, some s =>
          ⟨{ st with ctx := { st.ctx with current_product := some { p0 with price := some t } } },
           [Effect.confirmPrompt c col b s t p0.image_file_id],
           POut.ret ConvState.CONFIRM_PRODUCT⟩
      | _, _, _, _ =>
          ⟨{ st with ctx := { st.ctx with current_product := some { p0 with price := some t } } },
           [], POut.raised PyErr.keyError⟩

/- confirm_product, src/main.py lines 337-406.  confirm_yes appends
the draft to the products list (creating the list when absent) and
rebinds current_product to a fresh empty dict.  confirm_no shows the
edit sub-menu and stays in CONFIRM_PRODUCT.  edit_color resets the
colors page and re-enters PRODUCT_COLOR.  edit_new clears the draft,
deletes the message, and then evaluates the local reply_markup, which
was never assigned on this branch: UnboundLocalError, so the state
stays CONFIRM_PRODUCT with the draft already cleared. -/
def confirm_product (env : Env) (st : MState) (d : CbData) : HRes :=
  match d with
  | CbData.confirm_yes =>
      match st.user with
      | none => ⟨st, [], POut.raised PyErr.keyError⟩
      | some u =>
          match st.ctx.current_product with
          | none =>
              ⟨{ st with user := some { u with products := some (u.products.getD []) } },
               [], POut.raised PyErr.keyError⟩
          | some cp =>
              ⟨{ st with
                  user := some { u with products := some (u.products.getD [] ++ [cp]) },
                  ctx := { st.ctx with current_product := some {} } },
               [Effect.deleteMessage,
                Effect.sendMessage env.uid "What would you like to do next?"],
               POut.ret ConvState.NEXT_ACTION⟩
  | CbData.confirm_no =>
      ⟨st,
       [Effect.deleteMessage,
        Effect.sendMessage env.uid "What would you like to change?"],
       POut.ret ConvState.CONFIRM_PRODUCT⟩
  | CbData.edit_color =>
      thenShow { st with ctx := { st.ctx with colors_page := some 0 } }
        ConvState.PRODUCT_COLOR [] show_colors_page
  | CbData.edit_new =>
      ⟨{ st with ctx := { st.ctx with current_product := some {} } },
       [Effect.deleteMessage], POut.raised PyErr.nameError⟩
  | _ => noop st

/- One output row, src/main.py lines 441-453: each field is a dict
lookup that raises KeyError when the key is absent. -/
def build_row (u : UserData) (p : Product) : Except PyErr OrderRow :=
  match u.name, u.store, u.shop_id, u.owner_name, u.owner_phone with
  | some nm, some sn, some sid, some onm, some oph =>
      match p.code, p.color, p.badge_quantity, p.size_range, p.price, p.image_file_id with
      | some c, some col, some b, some s, some pr, some img =>
          Except.ok ⟨nm, sn, sid, onm, oph, c, col, b, s, pr, img⟩
      | _, _, _, _, _, _ => Except.error PyErr.keyError
  | _, _, _, _, _ => Except.error PyErr.keyError

/- The data loop of the Save-to-file branch, src/main.py lines 439-453:
one row per product, in list order. -/
def build_rows (u : UserData) : List Product → Except PyErr (List OrderRow)
  | [] => Except.ok []
  | p :: ps =>
      match build_row u p with
      | Except.error e => Except.error e
      | Except.ok r =>
          match build_rows u ps with
          | Except.error e => Except.error e
          | Except.ok rs => Except.ok (r :: rs)

/- process_next_action, src/main.py lines 408-466.  Clone branch: copy
every field except color from the last confirmed product into a fresh
draft and re-enter the color selection at page 0.  Save branch: build
the dataframe, remember it, reset the recipients page and enter
CHOOSE_RECIPIENT.  Any other text falls off the end (return None), so
the framework keeps the NEXT_ACTION state. -/
def process_next_action (st : MState) (t : String) : HRes :=
  if t = "Add same product with different color" then
    match st.user with
    | none => ⟨st, [], POut.raised PyErr.keyError⟩
    | some u =>
        match u.products with
        | none => ⟨st, [], POut.raised PyErr.keyError⟩
        | some ps =>
            match ps.getLast? with
            | none => ⟨st, [], POut.raised PyErr.indexError⟩
            | some lastp =>
                match lastp.image_file_id, lastp.code, lastp.badge_quantity,
                      lastp.size_range, lastp.price with
                | some img, some c, some b, some s, some pr =>
                    thenShow
                      { st with ctx := { st.ctx with
                          current_product := some { image_file_id := some img, code := some c,
                                                    badge_quantity := some b, size_range := some s,
                                                    price := some pr },
                          colors_page := some 0 } }
                      ConvState.PRODUCT_COLOR [] show_colors_page
                | _, _, _, _, _ => ⟨st, [], POut.raised PyErr.keyError⟩
  else if t = "Add new product" then
    ⟨st, [Effect.reply "Please send a product image:"], POut.ret ConvState.PRODUCT_IMAGE⟩
  else if t = "Save to file" then
    match st.user with
    | none => ⟨st, [], POut.raised PyErr.keyError⟩
    | some u =>
        match u.products with
        | none => ⟨st, [], POut.raised PyErr.keyError⟩
        | some ps =>
            match build_rows u ps with
            | Except.error e => ⟨st, [], POut.raised e⟩
            | Except.ok rows =>
                thenShow
                  { st with ctx := { st.ctx with order_dataframe := some rows,
                                                 recipients_page := some 0 } }
                  ConvState.CHOOSE_RECIPIENT
                  [Effect.reply "Please select a recipient for this order:"]
                  show_recipients_page
  else ⟨st, [], POut.retNone⟩

/- recipient_choice, src/main.py lines 513-577.  After navigation is
ruled out, the stored dataframe is written to order_<uid>.xlsx and sent
to the requester.  For an explicit recipient, the second send (and the
caption f-string reading the session name and store) runs inside
try/except: any failure degrades to the soft warning message.  Finally
the user entry is popped and the conversation ends. -/
def recipient_choice (env : Env) (st : MState) (d : CbData) : HRes :=
  match d with
  | CbData.recipient_prev_page =>
      match st.ctx.recipients_page with
      | none => ⟨st, [], POut.raised PyErr.keyError⟩
      | some p =>
          thenShow { st with ctx := { st.ctx with recipients_page := some (p - 1) } }
            ConvState.CHOOSE_RECIPIENT [] show_recipients_page
  | CbData.recipient_next_page =>
      match st.ctx.recipients_page with
      | none => ⟨st, [], POut.raised PyErr.keyError⟩
      | some p =>
          thenShow { st with ctx := { st.ctx with recipients_page := some (p + 1) } }
            ConvState.CHOOSE_RECIPIENT [] show_recipients_page
  | CbData.recipient_idx i =>
      match st.ctx.order_dataframe with
      | none => ⟨st, [], POut.raised PyErr.keyError⟩
      | some rows =>
          let effs1 := [Effect.writeExcel env.uid rows, Effect.deleteMessage,
                        Effect.sendDocument env.uid rows "Here is your order file."]
          match st.excel.recipients with
          | none => ⟨st, effs1, POut.raised PyErr.attributeError⟩
          | some rl =>
              match rl[i]? with
              | none => ⟨st, effs1, POut.raised PyErr.indexError⟩
              | some rc =>
                  let sendEffs :=
                    match st.user with
                    | some u =>
                        match u.name, u.store with
                        | some nm, some sn =>
                            if env.deliverOk then
                              [Effect.sendDocument rc.2 rows
                                 ("New order from " ++ nm ++ " for " ++ sn),
                               Effect.sendMessage env.uid
                                 ("Order has been sent to " ++ rc.1 ++ ".")]
                            else
                              [Effect.sendMessage env.uid
                                 ("Could not send the file to " ++ rc.1 ++ ". Please forward it manually.")]
                        | _, _ =>
                            [Effect.sendMessage env.uid
                               ("Could not send the file to " ++ rc.1 ++ ". Please forward it manually.")]
                    | none =>
                        [Effect.sendMessage env.uid
                           ("Could not send the file to " ++ rc.1 ++ ". Please forward it manually.")]
                  ⟨{ st with user := none },
                   effs1 ++ sendEffs ++
                     [Effect.sendMessage env.uid
                        "Thank you! Your order has been saved. Type /start to place a new order."],
                   POut.ret ConvState.END⟩
  | CbData.recipient_skip =>
      match st.ctx.order_dataframe with
      | none => ⟨st, [], POut.raised PyErr.keyError⟩
      | some rows =>
          ⟨{ st with user := none },
           [Effect.writeExcel env.uid rows, Effect.deleteMessage,
            Effect.sendDocument env.uid rows "Here is your order file.",
            Effect.sendMessage env.uid
              "Thank you! Your order has been saved. Type /start to place a new order."],
           POut.ret ConvState.END⟩
  | _ => noop st

/- cancel, src/main.py lines 579-584: pops the user entry from the
global store (context.user_data is left untouched) and ends the
conversation. -/
def cancel (st : MState) : HRes :=
  ⟨{ st with user := none },
   [Effect.reply "Operation cancelled. Type /start to begin again."],
   POut.ret ConvState.END⟩

/- The ^store_ pattern of the CHOOSE_STORE CallbackQueryHandler. -/
def storePattern : CbData → Bool
  | CbData.store_idx _ | CbData.store_prev_page | CbData.store_next_page => true
  | _ => false

/- The ^color_ pattern of the PRODUCT_COLOR CallbackQueryHandler. -/
def colorPattern : CbData → Bool
  | CbData.color_idx _ | CbData.color_prev_page | CbData.color_next_page => true
  | _ => false

/- The ^(confirm_|edit_) pattern of the CONFIRM_PRODUCT handler. -/
def confirmPattern : CbData → Bool
  | CbData.confirm_yes | CbData.confirm_no | CbData.edit_color | CbData.edit_new => true
  | _ => false

/- The ^recipient_ pattern of the CHOOSE_RECIPIENT handler. -/
def recipientPattern : CbData → Bool
  | CbData.recipient_idx _ | CbData.recipient_prev_page
  | CbData.recipient_next_page | CbData.recipient_skip => true
  | _ => false

/- The states of the live conversation (every state a handler can
return other than END). -/
def activeState : ConvState → Bool
  | ConvState.START => false
  | ConvState.END => false
  | _ => true

/- The ConversationHandler dispatch of main, src/main.py lines 586-615:
with no active conversation only the /start entry point fires; inside a
conversation, the current state owns one handler (a text MessageHandler
excluding commands, a photo MessageHandler, or a pattern-filtered
CallbackQueryHandler) and /cancel is the only fallback.  Everything
else is ignored. -/
def handle (env : Env) (st : MState) (e : Event) : HRes :=
  match st.conv with
  | ConvState.START | ConvState.END =>
      match e with
      | Event.cmd_start => start st
      | _ => noop st
  | c =>
      match e with
      | Event.cmd_cancel => cancel st
      | _ =>
          match c, e with
          | ConvState.NAME, Event.text s => process_name env st s
          | ConvState.CHOOSE_STORE, Event.cb d =>
              if storePattern d then store_choice st d else noop st
          | ConvState.SHOP_ID, Event.text s => process_shop_id st s
          | ConvState.OWNER_NAME, Event.text s => process_owner_name st s
          | ConvState.OWNER_PHONE, Event.text s => process_owner_phone st s
          | ConvState.PRODUCT_IMAGE, Event.photo f => process_product_image st f
          | ConvState.PRODUCT_CODE, Event.text s => process_product_code st s
          | ConvState.PRODUCT_COLOR, Event.cb d =>
              if colorPattern d then color_choice st d else noop st
          | ConvState.BADGE_QUANTITY, Event.text s => process_badge_quantity st s
          | ConvState.PRODUCT_SIZE_RANGE, Event.text s => process_size_range st s
          | ConvState.PRODUCT_PRICE, Event.text s => process_price st s
          | ConvState.CONFIRM_PRODUCT, Event.cb d =>
              if confirmPattern d then confirm_product env st d else noop st
          | ConvState.NEXT_ACTION, Event.text s => process_next_action st s
          | ConvState.CHOOSE_RECIPIENT, Event.cb d =>
              if recipientPattern d then recipient_choice env st d else noop st
          | _, _ => noop st

/- One dispatched update: a returned state replaces the conversation
state; a raise or an implicit None keeps it (mutations persist). -/
def step (env : Env) (st : MState) (e : Event) : MState × List Effect :=
  let r := handle env st e
  match r.out with
  | POut.ret c => ({ r.st with conv := c }, r.effs)
  | _ => ({ r.st with conv := st.conv }, r.effs)

/- Folding step over an event sequence. -/
def run (env : Env) : MState → List Event → MState
  | st, [] => st
  | st, e :: es => run env (step env st e).1 es

/- Folding step while collecting every emitted effect in order. -/
def runEff (env : Env) : MState → List Event → MState × List Effect
  | st, [] => (st, [])
  | st, e :: es =>
      let r := step env st e
      let rest := runEff env r.1 es
      (rest.1, r.2 ++ rest.2)

/- Process start: no conversation, empty global store, cold cache. -/
def initState : MState := ⟨ConvState.START, none, {}, {}⟩

/- The confirmed-products list of a state, reading an absent user entry
or an absent products key as the empty list. -/
def productsList (st : MState) : List Product :=
  match st.user with
  | none => []
  | some u => u.products.getD []

/- The in-progress draft (empty when absent). -/
def draftOf (st : MState) : Product := st.ctx.current_product.getD {}

/- A confirm_yes event is processed for the session exactly when the
conversation sits in CONFIRM_PRODUCT and both dict lookups of the
append succeed. -/
def processedCY (st : MState) (e : Event) : Bool :=
  decide (st.conv = ConvState.CONFIRM_PRODUCT) &&
  decide (e = Event.cb CbData.confirm_yes) &&
  st.user.isSome && st.ctx.current_product.isSome

/- Events that end or recreate the session itself: /start on an idle
chat, /cancel inside the conversation, and the terminal recipient
choice (selection or skip). -/
def sessionEnding (st : MState) (e : Event) : Bool :=
  match st.conv, e with
  | ConvState.START, Event.cmd_start => true
  | ConvState.END, Event.cmd_start => true
  | ConvState.START, Event.cmd_cancel => false
  | ConvState.END, Event.cmd_cancel => false
  | _, Event.cmd_cancel => true
  | ConvState.CHOOSE_RECIPIENT, Event.cb (CbData.recipient_idx _) => true
  | ConvState.CHOOSE_RECIPIENT, Event.cb CbData.recipient_skip => true
  | _, _ => false

/- Number of confirm_yes events processed along a run. -/
def countCY (env : Env) : MState → List Event → Nat
  | _, [] => 0
  | st, e :: es =>
      (if processedCY st e then 1 else 0) + countCY env (step env st e).1 es

/- The drafts appended along a run, in order. -/
def appendedCY (env : Env) : MState → List Event → List Product
  | _, [] => []
  | st, e :: es =>
      (if processedCY st e then [draftOf st] else []) ++ appendedCY env (step env st e).1 es

/- No step of the run ends or recreates the session. -/
def noSessionEnd (env : Env) : MState → List Event → Bool
  | _, [] => true
  | st, e :: es => !sessionEnding st e && noSessionEnd env (step env st e).1 es

/- A draft is complete when code, color, badge quantity, size range and
price are all present (the image handle may legitimately be absent per
the data model). -/
def complete (p : Product) : Bool :=
  p.code.isSome && p.color.isSome && p.badge_quantity.isSome &&
  p.size_range.isSome && p.price.isSome

/- Concrete fixtures used by counterexamples and witnesses. -/
def fetch0 : FetchData := ⟨["StoreA", "StoreB"], ["Red", "Blue"], [("Boss", 99)]⟩

def env0 : Env := ⟨some fetch0, true, 1⟩

/- A copy of a state with only the stores page index replaced: the
second run of the C10 hyperproperty. -/
def setStoresPage (st : MState) (q : Option Int) : MState :=
  { st with ctx := { st.ctx with stores_page := q } }

def setColorsPage (st : MState) (q : Option Int) : MState :=
  { st with ctx := { st.ctx with colors_page := q } }

def setRecipientsPage (st : MState) (q : Option Int) : MState :=
  { st with ctx := { st.ctx with recipients_page := q } }

/- A full conversation that reaches the confirmation prompt and then
presses the restart-product button before a stale confirm: the
edit_new branch clears the draft but crashes on its unbound local
reply_markup, leaving the machine in CONFIRM_PRODUCT with an empty
draft, which the following confirm_yes appends. -/
def esBad : List Event :=
  [Event.cmd_start, Event.text "Jane", Event.cb (CbData.store_idx 0), Event.text "S1",
   Event.text "Jo", Event.text "555", Event.photo "F", Event.text "C1",
   Event.cb (CbData.color_idx 0), Event.text "50", Event.text "S-XL", Event.text "9.99",
   Event.cb CbData.edit_new, Event.cb CbData.confirm_yes]

/- A complete happy-path conversation: one product, saved, recipient
skipped. -/
def esHappy : List Event :=
  [Event.cmd_start, Event.text "Jane", Event.cb (CbData.store_idx 0), Event.text "S1",
   Event.text "Jo", Event.text "555", Event.photo "F", Event.text "C1",
   Event.cb (CbData.color_idx 0), Event.text "50", Event.text "S-XL", Event.text "9.99",
   Event.cb CbData.confirm_yes, Event.text "Save to file", Event.cb CbData.recipient_skip]

/- The single order row that esHappy produces. -/
def rowHappy : OrderRow :=
  ⟨"Jane", "StoreA", "S1", "Jo", "555", "C1", "Red", "50", "S-XL", "9.99", "F"⟩

/- Outcomes that keep the previous conversation state. -/
def notRet : POut → Prop
  | POut.ret _ => False
  | _ => True

/- The reachability invariant behind the amended C5: NEXT_ACTION is
only inhabited with a non-empty products list, CHOOSE_RECIPIENT only
with a non-empty prepared dataframe. -/
def InvC5 (st : MState) : Prop :=
  (st.conv = ConvState.NEXT_ACTION → productsList st ≠ []) ∧
  (st.conv = ConvState.CHOOSE_RECIPIENT → st.ctx.order_dataframe.getD [] ≠ [])

/- What one handler invocation guarantees for the invariant. -/
def HInv (st0 : MState) (r : HRes) : Prop :=
  (r.out = POut.ret ConvState.NEXT_ACTION → productsList r.st ≠ []) ∧
  (r.out = POut.ret ConvState.CHOOSE_RECIPIENT → r.st.ctx.order_dataframe.getD [] ≠ []) ∧
  (notRet r.out →
     (st0.conv = ConvState.NEXT_ACTION → productsList r.st ≠ []) ∧
     (st0.conv = ConvState.CHOOSE_RECIPIENT → r.st.ctx.order_dataframe.getD [] ≠ [])) ∧
  (∀ uid rows, Effect.writeExcel uid rows ∈ r.effs → rows ≠ [])

/- The state carried out of a thenShow wrapper is the mutated state
passed in, whatever the page rendering did. -/
lemma thenShow_st (st1 : MState) (next : ConvState) (pre : List Effect)
    (sh : MState → List Effect × Option PyErr) :
    (thenShow st1 next pre sh).st = st1 := by
  unfold thenShow
  rcases sh st1 with ⟨effs, _ | e⟩ <;> rfl

/- The conversation-state field never influences the products list. -/
lemma pl_of_user {st' st : MState} (h : st'.user = st.user) :
    productsList st' = productsList st := by
  unfold productsList
  rw [h]

lemma productsList_step_eq (env : Env) (st : MState) (e : Event) :
    productsList (step env st e).1 = productsList ((handle env st e).st) := by
  unfold step
  rcases h : (handle env st e).out <;> simp [h, productsList]

lemma pl_process_name (env : Env) (st : MState) (t : String) :
    productsList ((process_name env st t).st) = productsList st := by
  unfold process_name
  (repeat' split) <;> simp_all [productsList, thenShow_st]

lemma pl_store_choice (st : MState) (d : CbData) :
    productsList ((store_choice st d).st) = productsList st := by
  unfold store_choice
  cases d <;> (repeat' split) <;> simp_all [productsList, thenShow_st, noop]

lemma pl_process_shop_id (st : MState) (t : String) :
    productsList ((process_shop_id st t).st) = productsList st := by
  unfold process_shop_id
  (repeat' split) <;> simp_all [productsList]

lemma pl_process_owner_name (st : MState) (t : String) :
    productsList ((process_owner_name st t).st) = productsList st := by
  unfold process_owner_name
  (repeat' split) <;> simp_all [productsList]

lemma pl_process_owner_phone (st : MState) (t : String) :
    productsList ((process_owner_phone st t).st) = productsList st := by
  unfold process_owner_phone
  (repeat' split) <;> simp_all [productsList]

lemma user_process_product_image (st : MState) (f : String) :
    ((process_product_image st f).st).user = st.user := rfl

lemma user_process_product_code (st : MState) (t : String) :
    ((process_product_code st t).st).user = st.user := by
  unfold process_product_code
  (repeat' split) <;> simp [thenShow_st]

lemma user_color_choice (st : MState) (d : CbData) :
    ((color_choice st d).st).user = st.user := by
  unfold color_choice
  cases d <;> (repeat' split) <;> simp [thenShow_st, noop]

lemma user_process_badge_quantity (st : MState) (t : String) :
    ((process_badge_quantity st t).st).user = st.user := by
  unfold process_badge_quantity
  (repeat' split) <;> simp [thenShow_st]

lemma user_process_size_range (st : MState) (t : String) :
    ((process_size_range st t).st).user = st.user := by
  unfold process_size_range
  (repeat' split) <;> simp [thenShow_st]

lemma user_process_price (st : MState) (t : String) :
    ((process_price st t).st).user = st.user := by
  unfold process_price
  (repeat' split) <;> simp [thenShow_st]

lemma user_process_next_action (st : MState) (t : String) :
    ((process_next_action st t).st).user = st.user := by
  unfold process_next_action
  (repeat' split) <;> simp [thenShow_st]

lemma user_recipient_prev (env : Env) (st : MState) :
    ((recipient_choice env st CbData.recipient_prev_page).st).user = st.user := by
  unfold recipient_choice
  (repeat' split) <;> simp_all [thenShow_st]

lemma user_recipient_next (env : Env) (st : MState) :
    ((recipient_choice env st CbData.recipient_next_page).st).user = st.user := by
  unfold recipient_choice
  (repeat' split) <;> simp_all [thenShow_st]

/- confirm_product grows the products list by the current draft exactly
when the event is confirm_yes and both dict lookups succeed. -/
lemma pl_confirm_product (env : Env) (st : MState) (d : CbData) :
    productsList ((confirm_product env st d).st) =
      productsList st ++
        (if d = CbData.confirm_yes ∧ st.user.isSome ∧ st.ctx.current_product.isSome
         then [draftOf st] else []) := by
  unfold confirm_product
  cases d <;> simp_all [productsList, draftOf, noop, thenShow_st]
  rcases hu : st.user with _ | u <;>
    rcases hc : st.ctx.current_product with _ | cp <;>
    simp [hu, hc, productsList, draftOf]

/- The single-step append-only law: outside session-ending events, the
products list of the next state is the old list, extended by the draft
exactly when a confirm_yes is processed. -/
lemma products_step (env : Env) (st : MState) (e : Event)
    (h : sessionEnding st e = false) :
    productsList (step env st e).1 =
      productsList st ++ (if processedCY st e then [draftOf st] else []) := by
  rw [productsList_step_eq]
  obtain ⟨c, u, x, ex⟩ := st
  cases c
  case START =>
    cases e <;> simp_all [handle, sessionEnding, processedCY, noop]
  case NAME =>
    cases e <;>
      simp_all [handle, sessionEnding, processedCY, noop, pl_process_name]
  case CHOOSE_STORE =>
    cases e <;>
      simp_all [handle, sessionEnding, processedCY, noop]
    split
    · exact pl_store_choice _ _
    · rfl
  case SHOP_ID =>
    cases e <;>
      simp_all [handle, sessionEnding, processedCY, noop, pl_process_shop_id]
  case OWNER_NAME =>
    cases e <;>
      simp_all [handle, sessionEnding, processedCY, noop, pl_process_owner_name]
  case OWNER_PHONE =>
    cases e <;>
      simp_all [handle, sessionEnding, processedCY, noop, pl_process_owner_phone]
  case PRODUCT_IMAGE =>
    cases e <;>
      simp_all [handle, sessionEnding, processedCY, noop, productsList,
                user_process_product_image]
  case PRODUCT_CODE =>
    cases e <;>
      simp_all [handle, sessionEnding, processedCY, noop, productsList,
                user_process_product_code]
  case PRODUCT_COLOR =>
    cases e <;>
      simp_all [handle, sessionEnding, processedCY, noop]
    split
    · exact pl_of_user (user_color_choice _ _)
    · rfl
  case BADGE_QUANTITY =>
    cases e <;>
      simp_all [handle, sessionEnding, processedCY, noop, productsList,
                user_process_badge_quantity]
  case PRODUCT_SIZE_RANGE =>
    cases e <;>
      simp_all [handle, sessionEnding, processedCY, noop, productsList,
                user_process_size_range]
  case PRODUCT_PRICE =>
    cases e <;>
      simp_all [handle, sessionEnding, processedCY, noop, productsList,
                user_process_price]
  case CONFIRM_PRODUCT =>
    cases e <;>
      simp_all [handle, sessionEnding, processedCY, noop]
    rename_i d
    cases d <;>
      simp_all [confirmPattern, noop, pl_confirm_product]
  case NEXT_ACTION =>
    cases e <;>
      simp_all [handle, sessionEnding, processedCY, noop, productsList,
                user_process_next_action]
  case CHOOSE_RECIPIENT =>
    cases e <;>
      simp_all [handle, sessionEnding, processedCY, noop]
    rename_i d
    cases d <;> simp_all [recipientPattern, noop, sessionEnding]
    · exact pl_of_user (user_recipient_prev _ _)
    · exact pl_of_user (user_recipient_next _ _)
  case END =>
    cases e <;> simp_all [handle, sessionEnding, processedCY, noop]

/- The appended drafts are counted by countCY. -/
lemma appendedCY_length (env : Env) (st : MState) (es : List Event) :
    (appendedCY env st es).length = countCY env st es := by
  induction es generalizing st with
  | nil => simp [appendedCY, countCY]
  | cons e es ih =>
      simp only [appendedCY, countCY, List.length_append]
      rw [ih]
      split <;> simp

/- build_rows emits exactly one row per product. -/
lemma build_rows_length (u : UserData) (ps : List Product) (rows : List OrderRow)
    (h : build_rows u ps = Except.ok rows) : rows.length = ps.length := by
  induction ps generalizing rows with
  | nil =>
      rw [build_rows] at h
      cases h
      rfl
  | cons p ps ih =>
      rw [build_rows] at h
      rcases hb : build_row u p with e | r <;> rw [hb] at h
      · cases h
      · rcases hbs : build_rows u ps with e2 | rs <;> rw [hbs] at h
        · cases h
        · cases h
          simp [ih rs hbs]

lemma invC5_handle (env : Env) (c : ConvState) (u : Option UserData)
    (x : CtxData) (ex : ExcelData)
    (h1 : c = ConvState.NEXT_ACTION → productsList ⟨c, u, x, ex⟩ ≠ [])
    (h2 : c = ConvState.CHOOSE_RECIPIENT → x.order_dataframe.getD [] ≠ [])
    (e : Event) :
    HInv ⟨c, u, x, ex⟩ (handle env ⟨c, u, x, ex⟩ e) := by
  obtain ⟨exs, exc, exr⟩ := ex
  cases c
  case START =>
    cases e <;> simp [handle, noop, start, HInv, notRet, productsList]
  case NAME =>
    cases e <;>
      rcases hf : env.fetch with _ | fd <;>
      simp only [handle, noop, start, cancel, process_name, load_excel_data, hf,
                 thenShow, show_stores_page] <;>
      (repeat' split) <;> simp_all [HInv, notRet, productsList]
  case CHOOSE_STORE =>
    cases exs <;> cases e <;>
      simp only [handle, noop, cancel, store_choice, thenShow, show_stores_page] <;>
      (repeat' split) <;> simp_all [HInv, notRet, productsList]
  case SHOP_ID =>
    cases e <;>
      simp only [handle, noop, cancel, process_shop_id] <;>
      (repeat' split) <;> simp_all [HInv, notRet, productsList]
  case OWNER_NAME =>
    cases e <;>
      simp only [handle, noop, cancel, process_owner_name] <;>
      (repeat' split) <;> simp_all [HInv, notRet, productsList]
  case OWNER_PHONE =>
    cases e <;>
      simp only [handle, noop, cancel, process_owner_phone] <;>
      (repeat' split) <;> simp_all [HInv, notRet, productsList]
  case PRODUCT_IMAGE =>
    cases e <;>
      simp only [handle, noop, cancel, process_product_image] <;>
      simp_all [HInv, notRet, productsList]
  case PRODUCT_CODE =>
    cases exc <;> cases e <;>
      simp only [handle, noop, cancel, process_product_code, thenShow,
                 show_colors_page] <;>
      (repeat' split) <;> simp_all [HInv, notRet, productsList]
  case PRODUCT_COLOR =>
    cases exc <;> cases e <;>
      simp only [handle, noop, cancel, color_choice, thenShow, show_colors_page] <;>
      (repeat' split) <;> simp_all [HInv, notRet, productsList]
  case BADGE_QUANTITY =>
    cases e <;>
      simp only [handle, noop, cancel, process_badge_quantity] <;>
      (repeat' split) <;> simp_all [HInv, notRet, productsList]
  case PRODUCT_SIZE_RANGE =>
    cases e <;>
      simp only [handle, noop, cancel, process_size_range] <;>
      (repeat' split) <;> simp_all [HInv, notRet, productsList]
  case PRODUCT_PRICE =>
    cases e <;>
      simp only [handle, noop, cancel, process_price] <;>
      (repeat' split) <;> simp_all [HInv, notRet, productsList]
  case CONFIRM_PRODUCT =>
    cases exc <;> cases e <;>
      simp only [handle, noop, cancel, confirm_product, thenShow,
                 show_colors_page] <;>
      (repeat' split) <;> simp_all [HInv, notRet, productsList]
  case NEXT_ACTION =>
    cases e <;>
      simp only [handle, noop, cancel]
    case cmd_start => simp_all [HInv, notRet, productsList]
    case cmd_cancel => simp_all [cancel, HInv, notRet, productsList]
    case photo => simp_all [HInv, notRet, productsList]
    case cb => simp_all [HInv, notRet, productsList]
    case text t =>
      have hne : productsList ⟨ConvState.NEXT_ACTION, u, x, ⟨exs, exc, exr⟩⟩ ≠ [] :=
        h1 rfl
      rcases hu : u with _ | uu
      · exact absurd (by simp [productsList, hu]) (hu ▸ hne)
      · rcases hps : uu.products with _ | ps
        · refine absurd ?_ (hu ▸ hne)
          simp [productsList, hps]
        · have hps_ne : ps ≠ [] := by
            intro hnil
            apply hu ▸ hne
            simp [productsList, hps, hnil]
          by_cases hA : t = "Add same product with different color"
          · simp only [process_next_action, hA, if_pos, hps]
            cases exc <;>
              (repeat' split) <;>
              simp_all [HInv, notRet, productsList, thenShow, show_colors_page]
          · by_cases hB : t = "Add new product"
            · simp only [process_next_action, hA, hB, if_neg, if_pos, if_true, if_false]
              simp_all [HInv, notRet, productsList]
            · by_cases hC : t = "Save to file"
              · simp only [process_next_action, hA, hB, hC, if_neg, if_pos, if_true,
                           if_false, hps]
                rcases hbr : build_rows uu ps with err | rows <;> simp only [hbr]
                · simp_all [HInv, notRet, productsList]
                · have hrows_ne : rows ≠ [] := by
                    intro hnil
                    apply hps_ne
                    have hlen := build_rows_length uu ps rows hbr
                    rw [hnil] at hlen
                    exact List.length_eq_zero.mp hlen.symm
                  cases exr <;>
                    simp_all [HInv, notRet, productsList, thenShow,
                              show_recipients_page]
              · simp only [process_next_action, hA, hB, hC, if_neg, if_false]
                simp_all [HInv, notRet, productsList]
  case CHOOSE_RECIPIENT =>
    cases exr <;> cases e <;>
      simp only [handle, noop, cancel, recipient_choice, thenShow,
                 show_recipients_page] <;>
      (repeat' split) <;> simp_all [HInv, notRet, productsList]
  case END =>
    cases e <;> simp [handle, noop, start, HInv, notRet, productsList]

/- One dispatched update preserves the invariant, and any spreadsheet
it writes has at least one row. -/
lemma invC5_step (env : Env) (st : MState) (e : Event) (h : InvC5 st) :
    InvC5 (step env st e).1 ∧
    ∀ uid rows, Effect.writeExcel uid rows ∈ (step env st e).2 → rows ≠ [] := by
  obtain ⟨c, u, x, ex⟩ := st
  obtain ⟨h1, h2⟩ := h
  have hs := invC5_handle env c u x ex h1 h2 e
  obtain ⟨a1, a2, a3, a4⟩ := hs
  unfold step
  rcases hr : (handle env ⟨c, u, x, ex⟩ e).out with c' | _ | err <;> simp only [hr]
  · refine ⟨⟨fun hc => ?_, fun hc => ?_⟩, a4⟩
    · simp only at hc
      subst hc
      exact (pl_of_user rfl) ▸ a1 hr
    · simp only at hc
      subst hc
      exact a2 hr
  · have a3c := a3 (by rw [hr]; trivial)
    exact ⟨⟨fun hc => (pl_of_user rfl) ▸ a3c.1 (by simpa using hc),
            fun hc => a3c.2 (by simpa using hc)⟩, a4⟩
  · have a3c := a3 (by rw [hr]; trivial)
    exact ⟨⟨fun hc => (pl_of_user rfl) ▸ a3c.1 (by simpa using hc),
            fun hc => a3c.2 (by simpa using hc)⟩, a4⟩

/- The invariant holds along every run from a state satisfying it, and
every spreadsheet written along the way is non-empty. -/
lemma invC5_run (env : Env) (st : MState) (es : List Event) (h : InvC5 st) :
    InvC5 (runEff env st es).1 ∧
    ∀ uid rows, Effect.writeExcel uid rows ∈ (runEff env st es).2 → rows ≠ [] := by
  induction es generalizing st with
  | nil => exact ⟨h, by simp [runEff]⟩
  | cons e es ih =>
      obtain ⟨hstep, heff⟩ := invC5_step env st e h
      obtain ⟨hrun, hrest⟩ := ih (step env st e).1 hstep
      refine ⟨by simpa [runEff] using hrun, ?_⟩
      intro uid rows hmem
      simp only [runEff, List.mem_append] at hmem
      rcases hmem with hmem | hmem
      · exact heff uid rows hmem
      · exact hrest uid rows hmem

/-- Claim C1 is false on the code: the navigation handlers do not
clamp.  A Prev event received while the stores page index is 0 is not
a no-op: store_choice decrements the index unconditionally (line 147),
leaving page -1. -/
theorem C1_counterexample :
    (step env0
        ⟨ConvState.CHOOSE_STORE, some {}, { stores_page := some 0 },
         { stores := some ["A"] }⟩
        (Event.cb CbData.store_prev_page)).1.ctx.stores_page = some (-1) ∧
    (some (-1 : Int) ≠ some (0 : Int)) := by
  exact ⟨rfl, by decide⟩

/-- Claim C1 amended: each navigation event adds or subtracts 1 from
the page index unconditionally, with no boundary check, in each of the
three choice states; the invariant 0 <= pageIndex < max(totalPages, 1)
is preserved only because the keyboard offers Prev solely when
pageIndex > 0 and Next solely when pageIndex < totalPages - 1, so that
restricted to offered buttons every navigation keeps the index in
range.  A stale Prev at page 0 (or Next at the last page) is not a
no-op: it moves the index out of range. -/
theorem C1_amended (env : Env) (s1 s2 s3 : MState) (p q r w : Int) (n : Nat)
    (h1 : s1.conv = ConvState.CHOOSE_STORE) (h1p : s1.ctx.stores_page = some p)
    (h2 : s2.conv = ConvState.PRODUCT_COLOR) (h2p : s2.ctx.colors_page = some q)
    (h3 : s3.conv = ConvState.CHOOSE_RECIPIENT) (h3p : s3.ctx.recipients_page = some r)
    (h4 : 0 ≤ w) (h5 : w < ((max (total_pages n) 1 : Nat) : Int)) :
    (step env s1 (Event.cb CbData.store_prev_page)).1.ctx.stores_page = some (p - 1) ∧
    (step env s1 (Event.cb CbData.store_next_page)).1.ctx.stores_page = some (p + 1) ∧
    (step env s2 (Event.cb CbData.color_prev_page)).1.ctx.colors_page = some (q - 1) ∧
    (step env s2 (Event.cb CbData.color_next_page)).1.ctx.colors_page = some (q + 1) ∧
    (step env s3 (Event.cb CbData.recipient_prev_page)).1.ctx.recipients_page = some (r - 1) ∧
    (step env s3 (Event.cb CbData.recipient_next_page)).1.ctx.recipients_page = some (r + 1) ∧
    (hasPrev w = true → 0 ≤ w - 1 ∧ w - 1 < ((max (total_pages n) 1 : Nat) : Int)) ∧
    (hasNext w n = true → 0 ≤ w + 1 ∧ w + 1 < ((max (total_pages n) 1 : Nat) : Int)) := by
  obtain ⟨c1, u1, x1, e1⟩ := s1
  obtain ⟨c2, u2, x2, e2⟩ := s2
  obtain ⟨c3, u3, x3, e3⟩ := s3
  simp only at h1 h2 h3 h1p h2p h3p
  subst h1 h2 h3
  refine ⟨?_, ?_, ?_, ?_, ?_, ?_, ?_, ?_⟩
  · rcases hs : e1.stores with _ | l <;>
      simp [step, handle, store_choice, storePattern, thenShow, show_stores_page, h1p, hs]
  · rcases hs : e1.stores with _ | l <;>
      simp [step, handle, store_choice, storePattern, thenShow, show_stores_page, h1p, hs]
  · rcases hs : e2.colors with _ | l <;>
      simp [step, handle, color_choice, colorPattern, thenShow, show_colors_page, h2p, hs]
  · rcases hs : e2.colors with _ | l <;>
      simp [step, handle, color_choice, colorPattern, thenShow, show_colors_page, h2p, hs]
  · rcases hs : e3.recipients with _ | l <;>
      simp [step, handle, recipient_choice, recipientPattern, thenShow, show_recipients_page, h3p, hs]
  · rcases hs : e3.recipients with _ | l <;>
      simp [step, handle, recipient_choice, recipientPattern, thenShow, show_recipients_page, h3p, hs]
  · intro hw
    simp only [hasPrev, decide_eq_true_eq] at hw
    omega
  · intro hw
    simp only [hasNext, decide_eq_true_eq] at hw
    omega

/-- Witness for C1_amended at concrete states: page 1 of a 15-element
list (2 pages). -/
theorem C1_amended_witness :
    (step env0 ⟨ConvState.CHOOSE_STORE, some {}, { stores_page := some 1 },
        { stores := some ["A"] }⟩ (Event.cb CbData.store_prev_page)).1.ctx.stores_page = some 0 ∧
    (step env0 ⟨ConvState.CHOOSE_STORE, some {}, { stores_page := some 1 },
        { stores := some ["A"] }⟩ (Event.cb CbData.store_next_page)).1.ctx.stores_page = some 2 ∧
    (step env0 ⟨ConvState.PRODUCT_COLOR, some {}, { colors_page := some 1 },
        { colors := some ["Red"] }⟩ (Event.cb CbData.color_prev_page)).1.ctx.colors_page = some 0 ∧
    (step env0 ⟨ConvState.PRODUCT_COLOR, some {}, { colors_page := some 1 },
        { colors := some ["Red"] }⟩ (Event.cb CbData.color_next_page)).1.ctx.colors_page = some 2 ∧
    (step env0 ⟨ConvState.CHOOSE_RECIPIENT, some {}, { recipients_page := some 1 },
        { recipients := some [("B", 9)] }⟩ (Event.cb CbData.recipient_prev_page)).1.ctx.recipients_page = some 0 ∧
    (step env0 ⟨ConvState.CHOOSE_RECIPIENT, some {}, { recipients_page := some 1 },
        { recipients := some [("B", 9)] }⟩ (Event.cb CbData.recipient_next_page)).1.ctx.recipients_page = some 2 ∧
    (hasPrev 1 = true → 0 ≤ (1 : Int) - 1 ∧ (1 : Int) - 1 < ((max (total_pages 15) 1 : Nat) : Int)) ∧
    (hasNext 1 15 = true → 0 ≤ (1 : Int) + 1 ∧ (1 : Int) + 1 < ((max (total_pages 15) 1 : Nat) : Int)) :=
  C1_amended env0
    ⟨ConvState.CHOOSE_STORE, some {}, { stores_page := some 1 }, { stores := some ["A"] }⟩
    ⟨ConvState.PRODUCT_COLOR, some {}, { colors_page := some 1 }, { colors := some ["Red"] }⟩
    ⟨ConvState.CHOOSE_RECIPIENT, some {}, { recipients_page := some 1 }, { recipients := some [("B", 9)] }⟩
    1 1 1 1 15 rfl rfl rfl rfl rfl rfl (by decide) (by decide)

/-- Claim C2 is false on the code for the empty list: the source
computes totalPages by plain ceiling division (line 105), which is 0
for an empty list, not max(1, ceil(n/pageSize)) = 1 as the claim
states. -/
theorem C2_counterexample : total_pages 0 ≠ totalPages_spec 0 := by decide

/-- Claim C2 amended: the paginator computes
totalPages = ceil(n/10) (no max with 1), which agrees with the claimed
max(1, ceil(n/10)) whenever the list is non-empty; for every valid page
the visible slice has length min(10, n - pageIndex*10); an empty list
yields zero rows and neither a Prev nor a Next action, but its computed
totalPages is 0 (the message shows page 1/0), not 1. -/
theorem C2_amended (l : List String) (p : Nat)
    (hn : 1 ≤ l.length) (_hp : p < total_pages l.length) :
    total_pages l.length = totalPages_spec l.length ∧
    (page_rows l p).length = min 10 (l.length - p * 10) ∧
    (page_rows ([] : List String) 0 = [] ∧ total_pages 0 = 0 ∧
     hasPrev 0 = false ∧ hasNext 0 0 = false) := by
  refine ⟨?_, ?_, by decide⟩
  · unfold total_pages totalPages_spec ITEMS_PER_PAGE
    omega
  · unfold page_rows ITEMS_PER_PAGE
    simp

/-- Witness for C2_amended: a two-element list, page 0. -/
theorem C2_witness :
    1 ≤ (["a", "b"] : List String).length ∧
    0 < total_pages (["a", "b"] : List String).length ∧
    (total_pages (["a", "b"] : List String).length = totalPages_spec (["a", "b"] : List String).length ∧
     (page_rows ["a", "b"] 0).length = min 10 ((["a", "b"] : List String).length - 0 * 10) ∧
     (page_rows ([] : List String) 0 = [] ∧ total_pages 0 = 0 ∧
      hasPrev 0 = false ∧ hasNext 0 0 = false)) :=
  ⟨by decide, by decide, C2_amended ["a", "b"] 0 (by decide) (by decide)⟩

/-- Claim C3 names a code bug.  The failure half of the claim is true:
after a failed load the cache stays not-loaded, the user gets the
failure message and the conversation ends, and a later attempt with the
data available does fetch and proceed.  But the success half is broken
in the source: the already-loaded check
`if not excel_data[stores] or ...` evaluates `not` on a loaded
DataFrame, which raises ValueError, so every conversation after the
first successful load crashes in process_name instead of skipping the
fetch. -/
theorem C3_load_check (env : Env) (st : MState) (u : UserData) (t : String)
    (hu : st.user = some u) :
    (∀ l, st.excel.stores = some l →
       process_name env st t =
         ⟨{ st with user := some { u with name := some t } },
          [Effect.reply "Loading store data, please wait..."],
          POut.raised PyErr.valueError⟩) ∧
    (st.excel.stores = none → env.fetch = none →
       process_name env st t =
         ⟨{ st with user := some { u with name := some t } },
          [Effect.reply "Loading store data, please wait...",
           Effect.reply "Failed to load store data. Please try again later."],
          POut.ret ConvState.END⟩) ∧
    (st.excel.stores = none → ∀ d, env.fetch = some d →
       (process_name env st t).out = POut.ret ConvState.CHOOSE_STORE ∧
       (process_name env st t).st.excel.stores = some d.stores) := by
  obtain ⟨c, u0, x, ex⟩ := st
  simp only at hu
  subst hu
  refine ⟨?_, ?_, ?_⟩
  · intro l hl
    simp only at hl
    simp [process_name, hl]
  · intro hl hf
    simp only at hl
    simp [process_name, hl, load_excel_data, hf]
  · intro hl d hf
    simp only at hl
    simp [process_name, hl, load_excel_data, hf, thenShow, show_stores_page]

/-- Witness for C3_load_check: a state whose cache already holds a
loaded stores sheet (the ValueError case) and, via the other conjuncts
instantiated at the same state, vacuous or discharged branches. -/
theorem C3_witness :
    (∀ l, (⟨ConvState.NAME, some {}, {}, { stores := some ["A"] }⟩ : MState).excel.stores = some l →
       process_name env0 ⟨ConvState.NAME, some {}, {}, { stores := some ["A"] }⟩ "Jane" =
         ⟨{ (⟨ConvState.NAME, some {}, {}, { stores := some ["A"] }⟩ : MState) with
              user := some { ({} : UserData) with name := some "Jane" } },
          [Effect.reply "Loading store data, please wait..."],
          POut.raised PyErr.valueError⟩) ∧
    ((⟨ConvState.NAME, some {}, {}, { stores := some ["A"] }⟩ : MState).excel.stores = none →
       env0.fetch = none →
       process_name env0 ⟨ConvState.NAME, some {}, {}, { stores := some ["A"] }⟩ "Jane" =
         ⟨{ (⟨ConvState.NAME, some {}, {}, { stores := some ["A"] }⟩ : MState) with
              user := some { ({} : UserData) with name := some "Jane" } },
          [Effect.reply "Loading store data, please wait...",
           Effect.reply "Failed to load store data. Please try again later."],
          POut.ret ConvState.END⟩) ∧
    ((⟨ConvState.NAME, some {}, {}, { stores := some ["A"] }⟩ : MState).excel.stores = none →
       ∀ d, env0.fetch = some d →
       (process_name env0 ⟨ConvState.NAME, some {}, {}, { stores := some ["A"] }⟩ "Jane").out =
         POut.ret ConvState.CHOOSE_STORE ∧
       (process_name env0 ⟨ConvState.NAME, some {}, {}, { stores := some ["A"] }⟩ "Jane").st.excel.stores =
         some d.stores) :=
  C3_load_check env0 ⟨ConvState.NAME, some {}, {}, { stores := some ["A"] }⟩ {} "Jane" rfl

/-- Claim C6 confirmed: in CHOOSE_RECIPIENT, when a recipient is
selected and the guarded delivery to them fails, the requester has
already received the primary file (the sendDocument to the requester
precedes the attempt), receives the soft warning asking to forward the
file manually, no exception escapes (the handler returns, reaching
END), and the session entry is destroyed. -/
theorem C6_recipient_delivery_failure (env : Env) (st : MState) (rows : List OrderRow)
    (rl : List (String × Int)) (i : Nat) (u : UserData) (nm sn : String)
    (hc : st.conv = ConvState.CHOOSE_RECIPIENT)
    (hdf : st.ctx.order_dataframe = some rows)
    (hrl : st.excel.recipients = some rl)
    (hi : i < rl.length)
    (hu : st.user = some u) (hnm : u.name = some nm) (hsn : u.store = some sn)
    (hfail : env.deliverOk = false) :
    (step env st (Event.cb (CbData.recipient_idx i))).2 =
      [Effect.writeExcel env.uid rows, Effect.deleteMessage,
       Effect.sendDocument env.uid rows "Here is your order file.",
       Effect.sendMessage env.uid
         ("Could not send the file to " ++ rl[i].1 ++ ". Please forward it manually."),
       Effect.sendMessage env.uid
         "Thank you! Your order has been saved. Type /start to place a new order."] ∧
    (step env st (Event.cb (CbData.recipient_idx i))).1.conv = ConvState.END ∧
    (step env st (Event.cb (CbData.recipient_idx i))).1.user = none := by
  obtain ⟨c, u0, x, ex⟩ := st
  simp only at hc hdf hrl hu
  subst hc hu
  simp [step, handle, recipient_choice, recipientPattern, hdf, hrl,
        List.getElem?_eq_getElem hi, hnm, hsn, hfail]

/-- Witness for C6_recipient_delivery_failure: one recipient, delivery
fails. -/
theorem C6_witness :
    (step ⟨some fetch0, false, 1⟩
        ⟨ConvState.CHOOSE_RECIPIENT,
         some { name := some "Jane", store := some "StoreA" },
         { order_dataframe := some [] }, { recipients := some [("Boss", 99)] }⟩
        (Event.cb (CbData.recipient_idx 0))).2 =
      [Effect.writeExcel 1 [], Effect.deleteMessage,
       Effect.sendDocument 1 [] "Here is your order file.",
       Effect.sendMessage 1
         ("Could not send the file to " ++ ([("Boss", 99)] : List (String × Int))[0].1 ++
          ". Please forward it manually."),
       Effect.sendMessage 1
         "Thank you! Your order has been saved. Type /start to place a new order."] ∧
    (step ⟨some fetch0, false, 1⟩
        ⟨ConvState.CHOOSE_RECIPIENT,
         some { name := some "Jane", store := some "StoreA" },
         { order_dataframe := some [] }, { recipients := some [("Boss", 99)] }⟩
        (Event.cb (CbData.recipient_idx 0))).1.conv = ConvState.END ∧
    (step ⟨some fetch0, false, 1⟩
        ⟨ConvState.CHOOSE_RECIPIENT,
         some { name := some "Jane", store := some "StoreA" },
         { order_dataframe := some [] }, { recipients := some [("Boss", 99)] }⟩
        (Event.cb (CbData.recipient_idx 0))).1.user = none :=
  C6_recipient_delivery_failure ⟨some fetch0, false, 1⟩
    ⟨ConvState.CHOOSE_RECIPIENT,
     some { name := some "Jane", store := some "StoreA" },
     { order_dataframe := some [] }, { recipients := some [("Boss", 99)] }⟩
    [] [("Boss", 99)] 0 { name := some "Jane", store := some "StoreA" } "Jane" "StoreA"
    rfl rfl rfl (by decide) rfl rfl rfl rfl

/-- Claim C7 confirmed: in NEXT_ACTION, the literal choice
"Add same product with different color" builds a fresh draft carrying
the most recently confirmed product's image handle, code, badge
quantity, size range and price, with the color field absent, resets
the colors page to 0, and re-enters the color selection state; the
user entry (and hence the products list) is untouched. -/
theorem C7_clone_same_product (env : Env) (st : MState) (u : UserData)
    (ps : List Product) (p : Product) (img c b s pr : String)
    (hc : st.conv = ConvState.NEXT_ACTION)
    (hu : st.user = some u)
    (hps : u.products = some ps)
    (hlast : ps.getLast? = some p)
    (h1 : p.image_file_id = some img) (h2 : p.code = some c)
    (h3 : p.badge_quantity = some b) (h4 : p.size_range = some s) (h5 : p.price = some pr)
    (hcol : st.excel.colors.isSome = true) :
    (step env st (Event.text "Add same product with different color")).1.conv =
        ConvState.PRODUCT_COLOR ∧
    (step env st (Event.text "Add same product with different color")).1.ctx.current_product =
      some { image_file_id := some img, code := some c, color := none,
             badge_quantity := some b, size_range := some s, price := some pr } ∧
    (step env st (Event.text "Add same product with different color")).1.ctx.colors_page = some 0 ∧
    (step env st (Event.text "Add same product with different color")).1.user = some u := by
  obtain ⟨cv, u0, x, ex⟩ := st
  simp only at hc hu hcol
  subst hc hu
  rcases hcs : ex.colors with _ | l
  · rw [hcs] at hcol
    simp at hcol
  · simp [step, handle, process_next_action, hps, hlast, h1, h2, h3, h4, h5,
          thenShow, show_colors_page, hcs]

/-- Witness for C7_clone_same_product. -/
theorem C7_witness :
    (step env0
        ⟨ConvState.NEXT_ACTION, some { products := some [⟨some "F", some "C1", some "Red", some "50", some "S-XL", some "9.99"⟩] },
         {}, { colors := some ["Red", "Blue"] }⟩
        (Event.text "Add same product with different color")).1.conv = ConvState.PRODUCT_COLOR ∧
    (step env0
        ⟨ConvState.NEXT_ACTION, some { products := some [⟨some "F", some "C1", some "Red", some "50", some "S-XL", some "9.99"⟩] },
         {}, { colors := some ["Red", "Blue"] }⟩
        (Event.text "Add same product with different color")).1.ctx.current_product =
      some { image_file_id := some "F", code := some "C1", color := none,
             badge_quantity := some "50", size_range := some "S-XL", price := some "9.99" } ∧
    (step env0
        ⟨ConvState.NEXT_ACTION, some { products := some [⟨some "F", some "C1", some "Red", some "50", some "S-XL", some "9.99"⟩] },
         {}, { colors := some ["Red", "Blue"] }⟩
        (Event.text "Add same product with different color")).1.ctx.colors_page = some 0 ∧
    (step env0
        ⟨ConvState.NEXT_ACTION, some { products := some [⟨some "F", some "C1", some "Red", some "50", some "S-XL", some "9.99"⟩] },
         {}, { colors := some ["Red", "Blue"] }⟩
        (Event.text "Add same product with different color")).1.user =
      some { products := some [⟨some "F", some "C1", some "Red", some "50", some "S-XL", some "9.99"⟩] } :=
  C7_clone_same_product env0
    ⟨ConvState.NEXT_ACTION, some { products := some [⟨some "F", some "C1", some "Red", some "50", some "S-XL", some "9.99"⟩] },
     {}, { colors := some ["Red", "Blue"] }⟩
    { products := some [⟨some "F", some "C1", some "Red", some "50", some "S-XL", some "9.99"⟩] }
    [⟨some "F", some "C1", some "Red", some "50", some "S-XL", some "9.99"⟩]
    ⟨some "F", some "C1", some "Red", some "50", some "S-XL", some "9.99"⟩
    "F" "C1" "50" "S-XL" "9.99" rfl rfl rfl rfl rfl rfl rfl rfl rfl rfl

/-- Claim C8 is false as stated: /cancel pops the user entry from the
global store and ends the conversation, but it does not discard the
whole Session of the data model — the in-progress draft kept in
context.user_data survives the cancellation un-cleared. -/
theorem C8_counterexample :
    (step env0
        ⟨ConvState.PRODUCT_CODE, some { name := some "Jane" },
         { current_product := some { image_file_id := some "F" } }, {}⟩
        Event.cmd_cancel).1.conv = ConvState.END ∧
    (step env0
        ⟨ConvState.PRODUCT_CODE, some { name := some "Jane" },
         { current_product := some { image_file_id := some "F" } }, {}⟩
        Event.cmd_cancel).1.user = none ∧
    (step env0
        ⟨ConvState.PRODUCT_CODE, some { name := some "Jane" },
         { current_product := some { image_file_id := some "F" } }, {}⟩
        Event.cmd_cancel).1.ctx.current_product = some { image_file_id := some "F" } ∧
    some ({ image_file_id := some "F" } : Product) ≠ none := by
  refine ⟨rfl, rfl, rfl, by decide⟩

/-- Claim C8 amended: a Cancel event in any live conversation state
removes the user's entry from the global store (answers and accumulated
products) and transitions directly to Terminal, emitting the
cancellation message; the per-user context — including the in-progress
draft and the page indices — is left untouched. -/
theorem C8_amended (env : Env) (st : MState)
    (h : activeState st.conv = true) :
    step env st Event.cmd_cancel =
      ({ st with conv := ConvState.END, user := none },
       [Effect.reply "Operation cancelled. Type /start to begin again."]) := by
  obtain ⟨c, u, x, ex⟩ := st
  cases c <;> simp_all [activeState, step, handle, cancel]

/-- Witness for C8_amended at a concrete mid-conversation state. -/
theorem C8_witness :
    step env0
      ⟨ConvState.OWNER_NAME, some { name := some "Jane" }, {}, {}⟩ Event.cmd_cancel =
      ({ (⟨ConvState.OWNER_NAME, some { name := some "Jane" }, {}, {}⟩ : MState) with
           conv := ConvState.END, user := none },
       [Effect.reply "Operation cancelled. Type /start to begin again."]) :=
  C8_amended env0 ⟨ConvState.OWNER_NAME, some { name := some "Jane" }, {}, {}⟩ rfl

/-- Claim C9 confirmed: in each of the three paginated choice states a
navigation button press never moves the conversation to another state
(unconditionally — even on internal errors the framework keeps the
state), while a genuine selection event does advance: a store token to
SHOP_ID, a color token to BADGE_QUANTITY, and a recipient token or the
skip action to Terminal. -/
theorem C9_nav_never_advances (env : Env) (st : MState) :
    (st.conv = ConvState.CHOOSE_STORE →
       (step env st (Event.cb CbData.store_prev_page)).1.conv = ConvState.CHOOSE_STORE ∧
       (step env st (Event.cb CbData.store_next_page)).1.conv = ConvState.CHOOSE_STORE ∧
       (∀ l (i : Nat) u, st.excel.stores = some l → i < l.length → st.user = some u →
          (step env st (Event.cb (CbData.store_idx i))).1.conv = ConvState.SHOP_ID)) ∧
    (st.conv = ConvState.PRODUCT_COLOR →
       (step env st (Event.cb CbData.color_prev_page)).1.conv = ConvState.PRODUCT_COLOR ∧
       (step env st (Event.cb CbData.color_next_page)).1.conv = ConvState.PRODUCT_COLOR ∧
       (∀ l (i : Nat) p, st.excel.colors = some l → i < l.length →
          st.ctx.current_product = some p →
          (step env st (Event.cb (CbData.color_idx i))).1.conv = ConvState.BADGE_QUANTITY)) ∧
    (st.conv = ConvState.CHOOSE_RECIPIENT →
       (step env st (Event.cb CbData.recipient_prev_page)).1.conv = ConvState.CHOOSE_RECIPIENT ∧
       (step env st (Event.cb CbData.recipient_next_page)).1.conv = ConvState.CHOOSE_RECIPIENT ∧
       (∀ rows, st.ctx.order_dataframe = some rows →
          (step env st (Event.cb CbData.recipient_skip)).1.conv = ConvState.END) ∧
       (∀ rows rl (i : Nat), st.ctx.order_dataframe = some rows →
          st.excel.recipients = some rl → i < rl.length →
          (step env st (Event.cb (CbData.recipient_idx i))).1.conv = ConvState.END)) := by
  obtain ⟨c, u0, x, ex⟩ := st
  refine ⟨?_, ?_, ?_⟩ <;> intro hc <;> simp only at hc <;> subst hc
  · refine ⟨?_, ?_, ?_⟩
    · rcases hp : x.stores_page with _ | p <;>
        rcases hs : ex.stores with _ | l <;>
        simp [step, handle, store_choice, storePattern, thenShow, show_stores_page, hp, hs]
    · rcases hp : x.stores_page with _ | p <;>
        rcases hs : ex.stores with _ | l <;>
        simp [step, handle, store_choice, storePattern, thenShow, show_stores_page, hp, hs]
    · intro l i u hl hi hu
      simp only at hl hu
      simp [step, handle, store_choice, storePattern, hl, hu,
            List.getElem?_eq_getElem hi]
  · refine ⟨?_, ?_, ?_⟩
    · rcases hp : x.colors_page with _ | p <;>
        rcases hs : ex.colors with _ | l <;>
        simp [step, handle, color_choice, colorPattern, thenShow, show_colors_page, hp, hs]
    · rcases hp : x.colors_page with _ | p <;>
        rcases hs : ex.colors with _ | l <;>
        simp [step, handle, color_choice, colorPattern, thenShow, show_colors_page, hp, hs]
    · intro l i p hl hi hp
      simp only at hl hp
      simp [step, handle, color_choice, colorPattern, hl, hp,
            List.getElem?_eq_getElem hi]
  · refine ⟨?_, ?_, ?_, ?_⟩
    · rcases hp : x.recipients_page with _ | p <;>
        rcases hs : ex.recipients with _ | l <;>
        simp [step, handle, recipient_choice, recipientPattern, thenShow, show_recipients_page, hp, hs]
    · rcases hp : x.recipients_page with _ | p <;>
        rcases hs : ex.recipients with _ | l <;>
        simp [step, handle, recipient_choice, recipientPattern, thenShow, show_recipients_page, hp, hs]
    · intro rows hdf
      simp only at hdf
      simp [step, handle, recipient_choice, recipientPattern, hdf]
    · intro rows rl i hdf hrl hi
      simp only at hdf hrl
      rcases hu : u0 with _ | u
      · simp [step, handle, recipient_choice, recipientPattern, hdf, hrl,
              List.getElem?_eq_getElem hi]
      · rcases hn : u.name with _ | nm <;> rcases hs : u.store with _ | sn <;>
          simp [step, handle, recipient_choice, recipientPattern, hdf, hrl,
                List.getElem?_eq_getElem hi, hn, hs]

/-- Witness for C9_nav_never_advances at a concrete CHOOSE_STORE
state. -/
theorem C9_witness :
    ((⟨ConvState.CHOOSE_STORE, some {}, { stores_page := some 0 },
        { stores := some ["A"] }⟩ : MState).conv = ConvState.CHOOSE_STORE →
       (step env0 ⟨ConvState.CHOOSE_STORE, some {}, { stores_page := some 0 },
          { stores := some ["A"] }⟩ (Event.cb CbData.store_prev_page)).1.conv = ConvState.CHOOSE_STORE ∧
       (step env0 ⟨ConvState.CHOOSE_STORE, some {}, { stores_page := some 0 },
          { stores := some ["A"] }⟩ (Event.cb CbData.store_next_page)).1.conv = ConvState.CHOOSE_STORE ∧
       (∀ l (i : Nat) u, (⟨ConvState.CHOOSE_STORE, some {}, { stores_page := some 0 },
            { stores := some ["A"] }⟩ : MState).excel.stores = some l → i < l.length →
          (⟨ConvState.CHOOSE_STORE, some {}, { stores_page := some 0 },
            { stores := some ["A"] }⟩ : MState).user = some u →
          (step env0 ⟨ConvState.CHOOSE_STORE, some {}, { stores_page := some 0 },
             { stores := some ["A"] }⟩ (Event.cb (CbData.store_idx i))).1.conv = ConvState.SHOP_ID)) ∧
    ((⟨ConvState.CHOOSE_STORE, some {}, { stores_page := some 0 },
        { stores := some ["A"] }⟩ : MState).conv = ConvState.PRODUCT_COLOR →
       (step env0 ⟨ConvState.CHOOSE_STORE, some {}, { stores_page := some 0 },
          { stores := some ["A"] }⟩ (Event.cb CbData.color_prev_page)).1.conv = ConvState.PRODUCT_COLOR ∧
       (step env0 ⟨ConvState.CHOOSE_STORE, some {}, { stores_page := some 0 },
          { stores := some ["A"] }⟩ (Event.cb CbData.color_next_page)).1.conv = ConvState.PRODUCT_COLOR ∧
       (∀ l (i : Nat) p, (⟨ConvState.CHOOSE_STORE, some {}, { stores_page := some 0 },
            { stores := some ["A"] }⟩ : MState).excel.colors = some l → i < l.length →
          (⟨ConvState.CHOOSE_STORE, some {}, { stores_page := some 0 },
            { stores := some ["A"] }⟩ : MState).ctx.current_product = some p →
          (step env0 ⟨ConvState.CHOOSE_STORE, some {}, { stores_page := some 0 },
             { stores := some ["A"] }⟩ (Event.cb (CbData.color_idx i))).1.conv = ConvState.BADGE_QUANTITY)) ∧
    ((⟨ConvState.CHOOSE_STORE, some {}, { stores_page := some 0 },
        { stores := some ["A"] }⟩ : MState).conv = ConvState.CHOOSE_RECIPIENT →
       (step env0 ⟨ConvState.CHOOSE_STORE, some {}, { stores_page := some 0 },
          { stores := some ["A"] }⟩ (Event.cb CbData.recipient_prev_page)).1.conv = ConvState.CHOOSE_RECIPIENT ∧
       (step env0 ⟨ConvState.CHOOSE_STORE, some {}, { stores_page := some 0 },
          { stores := some ["A"] }⟩ (Event.cb CbData.recipient_next_page)).1.conv = ConvState.CHOOSE_RECIPIENT ∧
       (∀ rows, (⟨ConvState.CHOOSE_STORE, some {}, { stores_page := some 0 },
            { stores := some ["A"] }⟩ : MState).ctx.order_dataframe = some rows →
          (step env0 ⟨ConvState.CHOOSE_STORE, some {}, { stores_page := some 0 },
             { stores := some ["A"] }⟩ (Event.cb CbData.recipient_skip)).1.conv = ConvState.END) ∧
       (∀ rows rl (i : Nat), (⟨ConvState.CHOOSE_STORE, some {}, { stores_page := some 0 },
            { stores := some ["A"] }⟩ : MState).ctx.order_dataframe = some rows →
          (⟨ConvState.CHOOSE_STORE, some {}, { stores_page := some 0 },
            { stores := some ["A"] }⟩ : MState).excel.recipients = some rl → i < rl.length →
          (step env0 ⟨ConvState.CHOOSE_STORE, some {}, { stores_page := some 0 },
             { stores := some ["A"] }⟩ (Event.cb (CbData.recipient_idx i))).1.conv = ConvState.END)) :=
  C9_nav_never_advances env0
    ⟨ConvState.CHOOSE_STORE, some {}, { stores_page := some 0 }, { stores := some ["A"] }⟩

/-- Claim C10 confirmed: selection by token is page-independent.  A
store_<i> token records row i of the full stores list into the session,
a color_<i> token records row i of the full colors list into the draft,
and a recipient_<i> token delivers to row i of the recipients list; in
each case the outcome (recorded value, emitted effects, next state) is
identical when the run differs only in the current page index. -/
theorem C10_selection_page_independent (env : Env) (st : MState) (q : Option Int) (i : Nat) :
    (∀ l u, st.conv = ConvState.CHOOSE_STORE → st.excel.stores = some l →
       st.user = some u → ∀ hi : i < l.length,
       (step env st (Event.cb (CbData.store_idx i))).1.user =
         some { u with store := some l[i] } ∧
       (step env (setStoresPage st q) (Event.cb (CbData.store_idx i))).1.user =
         (step env st (Event.cb (CbData.store_idx i))).1.user ∧
       (step env (setStoresPage st q) (Event.cb (CbData.store_idx i))).2 =
         (step env st (Event.cb (CbData.store_idx i))).2 ∧
       (step env (setStoresPage st q) (Event.cb (CbData.store_idx i))).1.conv =
         (step env st (Event.cb (CbData.store_idx i))).1.conv) ∧
    (∀ l p, st.conv = ConvState.PRODUCT_COLOR → st.excel.colors = some l →
       st.ctx.current_product = some p → ∀ hi : i < l.length,
       (step env st (Event.cb (CbData.color_idx i))).1.ctx.current_product =
         some { p with color := some l[i] } ∧
       (step env (setColorsPage st q) (Event.cb (CbData.color_idx i))).1.ctx.current_product =
         (step env st (Event.cb (CbData.color_idx i))).1.ctx.current_product ∧
       (step env (setColorsPage st q) (Event.cb (CbData.color_idx i))).2 =
         (step env st (Event.cb (CbData.color_idx i))).2 ∧
       (step env (setColorsPage st q) (Event.cb (CbData.color_idx i))).1.conv =
         (step env st (Event.cb (CbData.color_idx i))).1.conv) ∧
    (∀ rl rows u nm sn, st.conv = ConvState.CHOOSE_RECIPIENT →
       st.excel.recipients = some rl → st.ctx.order_dataframe = some rows →
       st.user = some u → u.name = some nm → u.store = some sn →
       ∀ hi : i < rl.length,
       (step env (setRecipientsPage st q) (Event.cb (CbData.recipient_idx i))).2 =
         (step env st (Event.cb (CbData.recipient_idx i))).2 ∧
       (step env (setRecipientsPage st q) (Event.cb (CbData.recipient_idx i))).1.conv =
         (step env st (Event.cb (CbData.recipient_idx i))).1.conv ∧
       (env.deliverOk = true →
          Effect.sendDocument rl[i].2 rows ("New order from " ++ nm ++ " for " ++ sn) ∈
            (step env st (Event.cb (CbData.recipient_idx i))).2)) := by
  obtain ⟨c, u0, x, ex⟩ := st
  refine ⟨?_, ?_, ?_⟩
  · intro l u hc hl hu hi
    simp only at hc hl hu
    subst hc hu
    simp [step, handle, store_choice, storePattern, setStoresPage, hl,
          List.getElem?_eq_getElem hi]
  · intro l p hc hl hp hi
    simp only at hc hl hp
    subst hc
    simp [step, handle, color_choice, colorPattern, setColorsPage, hl, hp,
          List.getElem?_eq_getElem hi]
  · intro rl rows u nm sn hc hrl hdf hu hn hs hi
    simp only at hc hrl hdf hu
    subst hc hu
    rcases hd : env.deliverOk <;>
      simp [step, handle, recipient_choice, recipientPattern, setRecipientsPage,
            hrl, hdf, hn, hs, List.getElem?_eq_getElem hi, hd]

/-- Witness for C10_selection_page_independent at a concrete
CHOOSE_STORE state and token index 1. -/
theorem C10_witness :
    (∀ l u, (⟨ConvState.CHOOSE_STORE, some {}, { stores_page := some 0 },
        { stores := some ["A", "B"] }⟩ : MState).conv = ConvState.CHOOSE_STORE →
       (⟨ConvState.CHOOSE_STORE, some {}, { stores_page := some 0 },
        { stores := some ["A", "B"] }⟩ : MState).excel.stores = some l →
       (⟨ConvState.CHOOSE_STORE, some {}, { stores_page := some 0 },
        { stores := some ["A", "B"] }⟩ : MState).user = some u → ∀ hi : 1 < l.length,
       (step env0 ⟨ConvState.CHOOSE_STORE, some {}, { stores_page := some 0 },
          { stores := some ["A", "B"] }⟩ (Event.cb (CbData.store_idx 1))).1.user =
         some { u with store := some l[1] } ∧
       (step env0 (setStoresPage ⟨ConvState.CHOOSE_STORE, some {}, { stores_page := some 0 },
          { stores := some ["A", "B"] }⟩ (some 7)) (Event.cb (CbData.store_idx 1))).1.user =
         (step env0 ⟨ConvState.CHOOSE_STORE, some {}, { stores_page := some 0 },
          { stores := some ["A", "B"] }⟩ (Event.cb (CbData.store_idx 1))).1.user ∧
       (step env0 (setStoresPage ⟨ConvState.CHOOSE_STORE, some {}, { stores_page := some 0 },
          { stores := some ["A", "B"] }⟩ (some 7)) (Event.cb (CbData.store_idx 1))).2 =
         (step env0 ⟨ConvState.CHOOSE_STORE, some {}, { stores_page := some 0 },
          { stores := some ["A", "B"] }⟩ (Event.cb (CbData.store_idx 1))).2 ∧
       (step env0 (setStoresPage ⟨ConvState.CHOOSE_STORE, some {}, { stores_page := some 0 },
          { stores := some ["A", "B"] }⟩ (some 7)) (Event.cb (CbData.store_idx 1))).1.conv =
         (step env0 ⟨ConvState.CHOOSE_STORE, some {}, { stores_page := some 0 },
          { stores := some ["A", "B"] }⟩ (Event.cb (CbData.store_idx 1))).1.conv) ∧
    (∀ l p, (⟨ConvState.CHOOSE_STORE, some {}, { stores_page := some 0 },
        { stores := some ["A", "B"] }⟩ : MState).conv = ConvState.PRODUCT_COLOR →
       (⟨ConvState.CHOOSE_STORE, some {}, { stores_page := some 0 },
        { stores := some ["A", "B"] }⟩ : MState).excel.colors = some l →
       (⟨ConvState.CHOOSE_STORE, some {}, { stores_page := some 0 },
        { stores := some ["A", "B"] }⟩ : MState).ctx.current_product = some p →
       ∀ hi : 1 < l.length,
       (step env0 ⟨ConvState.CHOOSE_STORE, some {}, { stores_page := some 0 },
          { stores := some ["A", "B"] }⟩ (Event.cb (CbData.color_idx 1))).1.ctx.current_product =
         some { p with color := some l[1] } ∧
       (step env0 (setColorsPage ⟨ConvState.CHOOSE_STORE, some {}, { stores_page := some 0 },
          { stores := some ["A", "B"] }⟩ (some 7)) (Event.cb (CbData.color_idx 1))).1.ctx.current_product =
         (step env0 ⟨ConvState.CHOOSE_STORE, some {}, { stores_page := some 0 },
          { stores := some ["A", "B"] }⟩ (Event.cb (CbData.color_idx 1))).1.ctx.current_product ∧
       (step env0 (setColorsPage ⟨ConvState.CHOOSE_STORE, some {}, { stores_page := some 0 },
          { stores := some ["A", "B"] }⟩ (some 7)) (Event.cb (CbData.color_idx 1))).2 =
         (step env0 ⟨ConvState.CHOOSE_STORE, some {}, { stores_page := some 0 },
          { stores := some ["A", "B"] }⟩ (Event.cb (CbData.color_idx 1))).2 ∧
       (step env0 (setColorsPage ⟨ConvState.CHOOSE_STORE, some {}, { stores_page := some 0 },
          { stores := some ["A", "B"] }⟩ (some 7)) (Event.cb (CbData.color_idx 1))).1.conv =
         (step env0 ⟨ConvState.CHOOSE_STORE, some {}, { stores_page := some 0 },
          { stores := some ["A", "B"] }⟩ (Event.cb (CbData.color_idx 1))).1.conv) ∧
    (∀ rl rows u nm sn, (⟨ConvState.CHOOSE_STORE, some {}, { stores_page := some 0 },
        { stores := some ["A", "B"] }⟩ : MState).conv = ConvState.CHOOSE_RECIPIENT →
       (⟨ConvState.CHOOSE_STORE, some {}, { stores_page := some 0 },
        { stores := some ["A", "B"] }⟩ : MState).excel.recipients = some rl →
       (⟨ConvState.CHOOSE_STORE, some {}, { stores_page := some 0 },
        { stores := some ["A", "B"] }⟩ : MState).ctx.order_dataframe = some rows →
       (⟨ConvState.CHOOSE_STORE, some {}, { stores_page := some 0 },
        { stores := some ["A", "B"] }⟩ : MState).user = some u →
       u.name = some nm → u.store = some sn → ∀ hi : 1 < rl.length,
       (step env0 (setRecipientsPage ⟨ConvState.CHOOSE_STORE, some {}, { stores_page := some 0 },
          { stores := some ["A", "B"] }⟩ (some 7)) (Event.cb (CbData.recipient_idx 1))).2 =
         (step env0 ⟨ConvState.CHOOSE_STORE, some {}, { stores_page := some 0 },
          { stores := some ["A", "B"] }⟩ (Event.cb (CbData.recipient_idx 1))).2 ∧
       (step env0 (setRecipientsPage ⟨ConvState.CHOOSE_STORE, some {}, { stores_page := some 0 },
          { stores := some ["A", "B"] }⟩ (some 7)) (Event.cb (CbData.recipient_idx 1))).1.conv =
         (step env0 ⟨ConvState.CHOOSE_STORE, some {}, { stores_page := some 0 },
          { stores := some ["A", "B"] }⟩ (Event.cb (CbData.recipient_idx 1))).1.conv ∧
       (env0.deliverOk = true →
          Effect.sendDocument rl[1].2 rows ("New order from " ++ nm ++ " for " ++ sn) ∈
            (step env0 ⟨ConvState.CHOOSE_STORE, some {}, { stores_page := some 0 },
               { stores := some ["A", "B"] }⟩ (Event.cb (CbData.recipient_idx 1))).2)) :=
  C10_selection_page_independent env0
    ⟨ConvState.CHOOSE_STORE, some {}, { stores_page := some 0 }, { stores := some ["A", "B"] }⟩
    (some 7) 1

/-- Claim C4 is false in its completeness part: the products list can
grow by a draft that is not complete.  After edit_new (restart
product), which clears the draft and then raises on its unbound local
reply_markup without leaving CONFIRM_PRODUCT, a confirm_yes appends
the freshly cleared, fully empty draft — one processed confirm_yes,
one appended product, but with every field absent. -/
theorem C4_counterexample :
    productsList (run env0 initState esBad) = [{}] ∧
    countCY env0 initState esBad = 1 ∧
    complete {} = false := by
  refine ⟨by decide, by decide, by decide⟩

/-- Claim C4 amended: across any event sequence in which the session is
not ended or recreated, the products list only ever grows by appending
the draft current at each processed confirm_yes event: the old list
stays an unchanged prefix, exactly countCY entries are appended (one
per processed confirm_yes; rejections, edits and restarts append
nothing), and immediately after any processed confirm_yes the draft is
reset to the empty one.  The appended draft is complete along
button-respecting flows but need not be in general (see the
counterexample). -/
theorem C4_amended (env : Env) (st : MState) (es : List Event)
    (h : noSessionEnd env st es = true)
    (s : MState) (e : Event) (hp : processedCY s e = true) :
    productsList (run env st es) = productsList st ++ appendedCY env st es ∧
    (appendedCY env st es).length = countCY env st es ∧
    (step env s e).1.ctx.current_product = some {} := by
  refine ⟨?_, appendedCY_length env st es, ?_⟩
  · induction es generalizing st with
    | nil => simp [run, appendedCY]
    | cons e0 es0 ih =>
        rw [noSessionEnd] at h
        simp only [Bool.and_eq_true, Bool.not_eq_true'] at h
        rw [run, appendedCY, ih _ h.2, products_step env st e0 h.1,
            List.append_assoc]
  · simp only [processedCY, Bool.and_eq_true, decide_eq_true_eq,
               Option.isSome_iff_exists] at hp
    obtain ⟨⟨⟨hc, he⟩, uu, hu⟩, cp, hcp⟩ := hp
    obtain ⟨c, u, x, ex⟩ := s
    simp only at hc hu hcp
    subst hc he
    simp [step, handle, confirm_product, confirmPattern, hu, hcp]

/-- Witness for C4_amended: one confirm_yes from a confirmation state
with one prior product appends exactly the current draft and resets
it. -/
theorem C4_witness :
    noSessionEnd env0
      ⟨ConvState.CONFIRM_PRODUCT,
       some { products := some [⟨some "F", some "C1", some "Red", some "50", some "S-XL", some "9.99"⟩] },
       { current_product := some ⟨some "F", some "C1", some "Blue", some "50", some "S-XL", some "9.99"⟩ },
       {}⟩
      [Event.cb CbData.confirm_yes] = true ∧
    processedCY
      ⟨ConvState.CONFIRM_PRODUCT,
       some { products := some [⟨some "F", some "C1", some "Red", some "50", some "S-XL", some "9.99"⟩] },
       { current_product := some ⟨some "F", some "C1", some "Blue", some "50", some "S-XL", some "9.99"⟩ },
       {}⟩
      (Event.cb CbData.confirm_yes) = true ∧
    (productsList
        (run env0
          ⟨ConvState.CONFIRM_PRODUCT,
           some { products := some [⟨some "F", some "C1", some "Red", some "50", some "S-XL", some "9.99"⟩] },
           { current_product := some ⟨some "F", some "C1", some "Blue", some "50", some "S-XL", some "9.99"⟩ },
           {}⟩
          [Event.cb CbData.confirm_yes]) =
      productsList
          ⟨ConvState.CONFIRM_PRODUCT,
           some { products := some [⟨some "F", some "C1", some "Red", some "50", some "S-XL", some "9.99"⟩] },
           { current_product := some ⟨some "F", some "C1", some "Blue", some "50", some "S-XL", some "9.99"⟩ },
           {}⟩ ++
        appendedCY env0
          ⟨ConvState.CONFIRM_PRODUCT,
           some { products := some [⟨some "F", some "C1", some "Red", some "50", some "S-XL", some "9.99"⟩] },
           { current_product := some ⟨some "F", some "C1", some "Blue", some "50", some "S-XL", some "9.99"⟩ },
           {}⟩
          [Event.cb CbData.confirm_yes] ∧
      (appendedCY env0
          ⟨ConvState.CONFIRM_PRODUCT,
           some { products := some [⟨some "F", some "C1", some "Red", some "50", some "S-XL", some "9.99"⟩] },
           { current_product := some ⟨some "F", some "C1", some "Blue", some "50", some "S-XL", some "9.99"⟩ },
           {}⟩
          [Event.cb CbData.confirm_yes]).length =
        countCY env0
          ⟨ConvState.CONFIRM_PRODUCT,
           some { products := some [⟨some "F", some "C1", some "Red", some "50", some "S-XL", some "9.99"⟩] },
           { current_product := some ⟨some "F", some "C1", some "Blue", some "50", some "S-XL", some "9.99"⟩ },
           {}⟩
          [Event.cb CbData.confirm_yes] ∧
      (step env0
          ⟨ConvState.CONFIRM_PRODUCT,
           some { products := some [⟨some "F", some "C1", some "Red", some "50", some "S-XL", some "9.99"⟩] },
           { current_product := some ⟨some "F", some "C1", some "Blue", some "50", some "S-XL", some "9.99"⟩ },
           {}⟩
          (Event.cb CbData.confirm_yes)).1.ctx.current_product = some {}) :=
  ⟨by decide, by decide,
   C4_amended env0
     ⟨ConvState.CONFIRM_PRODUCT,
      some { products := some [⟨some "F", some "C1", some "Red", some "50", some "S-XL", some "9.99"⟩] },
      { current_product := some ⟨some "F", some "C1", some "Blue", some "50", some "S-XL", some "9.99"⟩ },
      {}⟩
     [Event.cb CbData.confirm_yes] (by decide)
     ⟨ConvState.CONFIRM_PRODUCT,
      some { products := some [⟨some "F", some "C1", some "Red", some "50", some "S-XL", some "9.99"⟩] },
      { current_product := some ⟨some "F", some "C1", some "Blue", some "50", some "S-XL", some "9.99"⟩ },
      {}⟩
     (Event.cb CbData.confirm_yes) (by decide)⟩

/-- Claim C5 is false as stated: the code has no EmptySessionError
guard at all.  Invoked on a session whose prepared order is empty, the
finalize path writes the zero-row spreadsheet, delivers it to the
requester, and ends the conversation normally — no error of any kind. -/
theorem C5_counterexample :
    Effect.writeExcel 1 [] ∈
      (step env0
          ⟨ConvState.CHOOSE_RECIPIENT, some { name := some "Jane" },
           { order_dataframe := some [] }, {}⟩
          (Event.cb CbData.recipient_skip)).2 ∧
    Effect.sendDocument 1 [] "Here is your order file." ∈
      (step env0
          ⟨ConvState.CHOOSE_RECIPIENT, some { name := some "Jane" },
           { order_dataframe := some [] }, {}⟩
          (Event.cb CbData.recipient_skip)).2 ∧
    (step env0
        ⟨ConvState.CHOOSE_RECIPIENT, some { name := some "Jane" },
         { order_dataframe := some [] }, {}⟩
        (Event.cb CbData.recipient_skip)).1.conv = ConvState.END := by
  refine ⟨by decide, by decide, rfl⟩

/-- Claim C5 amended: although the finalize path has no
EmptySessionError guard, the state machine never reaches it with an
empty order: in every run from the initial state, every spreadsheet
written has at least one row (NEXT_ACTION is entered only after a
confirm_yes appended a product, and Save-to-file emits one row per
confirmed product). -/
theorem C5_amended (env : Env) (es : List Event) (uid : Int) (rows : List OrderRow)
    (h : Effect.writeExcel uid rows ∈ (runEff env initState es).2) : rows ≠ [] := by
  refine (invC5_run env initState es ?_).2 uid rows h
  exact ⟨by simp [initState], by simp [initState]⟩

/-- Witness for C5_amended: the happy-path run writes exactly one row,
which is indeed non-empty. -/
theorem C5_witness :
    Effect.writeExcel 1 [rowHappy] ∈ (runEff env0 initState esHappy).2 ∧
    [rowHappy] ≠ [] :=
  ⟨by decide, C5_amended env0 esHappy 1 [rowHappy] (by decide)⟩

end Bot1
